import Mathlib

/-!
Verification of the Game Boy emulator core (rust_gbc_emu).

This file shallowly embeds the parts of the emulator that the checked claims
are about: the CPU register file and flag algebra (src/gbc/cpu/register.rs,
src/gbc/cpu/mod.rs), the instruction representation (src/gbc/cpu/instruction.rs),
the memory bus with its OAM-DMA arbitration (src/gbc/memory_bus.rs), the
cartridge MBC1 banking (src/gbc/cartridge.rs), the LCD register block
(src/gbc/mmio/lcd.rs), and the PPU pixel pipeline (src/gbc/ppu.rs).

Machine integers are embedded as `Nat` with explicit reductions modulo 2^8 or
2^16 exactly where the Rust code wraps.  Rust bit operations translate to the
corresponding `Nat` bit operations; masking by `0xf` is written `% 16` and
masking by `0x1f` is written `% 32` (equal operations on naturals).  Rust
functions that can panic (`unreachable!`, `panic!`, `todo!`, and the checked
arithmetic in debug builds) are embedded in `Option`, with `none` standing for
the panic.
-/

set_option maxRecDepth 100000
set_option maxHeartbeats 2000000

namespace GbcEmu

/-- Reduce to an unsigned 8-bit value, mirroring Rust `u8` wrapping. -/
def wrap8 (n : Nat) : Nat := n % 256

/-- Reduce to an unsigned 16-bit value, mirroring Rust `u16` wrapping. -/
def wrap16 (n : Nat) : Nat := n % 65536

/-- Embedding of `u8::trailing_zeros` (result for a zero byte is 8), written
as an explicit bit test over the eight bits. -/
def trailing_zeros8 (n : Nat) : Nat :=
  if n &&& 1 ≠ 0 then 0
  else if n &&& 2 ≠ 0 then 1
  else if n &&& 4 ≠ 0 then 2
  else if n &&& 8 ≠ 0 then 3
  else if n &&& 16 ≠ 0 then 4
  else if n &&& 32 ≠ 0 then 5
  else if n &&& 64 ≠ 0 then 6
  else if n &&& 128 ≠ 0 then 7
  else 8

/-!
Register file, from src/gbc/cpu/register.rs.

The Rust `RegisterStorage` is a `repr(C)` union overlaying a `u16` field
`all` with a two-byte struct whose fields are declared in the order
`high, low`.  The crate builds for little-endian hosts and rustc lays the
two equally-sized `u8` fields out in declaration order, so the field named
`high` occupies byte offset 0, which is the least significant byte of
`all`, and the field named `low` is the most significant byte.  The
embedding stores `all` and derives the two byte views accordingly:
`get_high` is `all % 256` and `get_low` is `all / 256`.
-/

structure RegisterStorage where
  all : Nat
deriving Repr, DecidableEq

namespace RegisterStorage

/-- Byte view named `high` in the source: the least significant byte of `all`. -/
def get_high (r : RegisterStorage) : Nat := r.all % 256

/-- Byte view named `low` in the source: the most significant byte of `all`. -/
def get_low (r : RegisterStorage) : Nat := r.all / 256

def get_u16 (r : RegisterStorage) : Nat := r.all

/-- Store `v` in the byte named `high` (the least significant byte of `all`). -/
def set_high (r : RegisterStorage) (v : Nat) : RegisterStorage :=
  ⟨(r.all / 256) * 256 + v % 256⟩

/-- Store `v` in the byte named `low` (the most significant byte of `all`). -/
def set_low (r : RegisterStorage) (v : Nat) : RegisterStorage :=
  ⟨(v % 256) * 256 + r.all % 256⟩

def set_u16 (r : RegisterStorage) (v : Nat) : RegisterStorage :=
  ⟨wrap16 v⟩

/-- Well-formedness: the stored word is a 16-bit value. -/
def wf (r : RegisterStorage) : Prop := r.all < 65536

instance (r : RegisterStorage) : Decidable r.wf := by
  unfold wf; infer_instance

end RegisterStorage

/-! CPU state, from src/gbc/cpu/mod.rs.  The `show_instructions` field only
controls logging and is omitted. -/

inductive CpuState where
  | running
  | halted
  | stopped
deriving Repr, DecidableEq

structure Cpu where
  af : RegisterStorage
  bc : RegisterStorage
  de : RegisterStorage
  hl : RegisterStorage
  pc : Nat
  sp : Nat
  state : CpuState
  interrupts_enabled : Bool
deriving Repr, DecidableEq

/-- Embedding of `Cpu::default`. -/
def Cpu.default : Cpu :=
  { af := ⟨0⟩, bc := ⟨0⟩, de := ⟨0⟩, hl := ⟨0⟩
    pc := 0, sp := 0, state := .running, interrupts_enabled := false }

namespace Cpu

/-- Flags register bit masks from the source. -/
def carry_bit_mask : Nat := 16

def half_carry_bit_mask : Nat := 32

def subtraction_bit_mask : Nat := 64

def zero_bit_mask : Nat := 128

def get_flags (c : Cpu) : Nat := c.af.get_low

def set_flags (c : Cpu) (flags : Nat) : Cpu := { c with af := c.af.set_low flags }

def clear_flags (c : Cpu) : Cpu := c.set_flags 0

def get_zero_flag (c : Cpu) : Bool := c.get_flags &&& zero_bit_mask == zero_bit_mask

def get_subtraction_flag (c : Cpu) : Bool :=
  c.get_flags &&& subtraction_bit_mask == subtraction_bit_mask

def get_half_carry_flag (c : Cpu) : Bool :=
  c.get_flags &&& half_carry_bit_mask == half_carry_bit_mask

def get_carry_flag (c : Cpu) : Bool := c.get_flags &&& carry_bit_mask == carry_bit_mask

/-- Rust `flags | MASK`. -/
def set_zero_flag (c : Cpu) : Cpu := c.set_flags (c.get_flags ||| zero_bit_mask)

def set_subtraction_flag (c : Cpu) : Cpu :=
  c.set_flags (c.get_flags ||| subtraction_bit_mask)

def set_half_carry_flag (c : Cpu) : Cpu :=
  c.set_flags (c.get_flags ||| half_carry_bit_mask)

def set_carry_flag (c : Cpu) : Cpu := c.set_flags (c.get_flags ||| carry_bit_mask)

/-- Rust `flags & !MASK`; the complement of the u8 mask is written out. -/
def clear_zero_flag (c : Cpu) : Cpu := c.set_flags (c.get_flags &&& 127)

def clear_subtraction_flag (c : Cpu) : Cpu := c.set_flags (c.get_flags &&& 191)

def clear_half_carry_flag (c : Cpu) : Cpu := c.set_flags (c.get_flags &&& 223)

def clear_carry_flag (c : Cpu) : Cpu := c.set_flags (c.get_flags &&& 239)

def set_zero_flag_from_bool (c : Cpu) (zero : Bool) : Cpu :=
  if zero then c.set_zero_flag else c.clear_zero_flag

def set_subtraction_flag_from_bool (c : Cpu) (subtraction : Bool) : Cpu :=
  if subtraction then c.set_subtraction_flag else c.clear_subtraction_flag

def set_half_carry_flag_from_bool (c : Cpu) (half_carry : Bool) : Cpu :=
  if half_carry then c.set_half_carry_flag else c.clear_half_carry_flag

def set_carry_flag_from_bool (c : Cpu) (carry : Bool) : Cpu :=
  if carry then c.set_carry_flag else c.clear_carry_flag

def get_a (c : Cpu) : Nat := c.af.get_high

def set_a (c : Cpu) (v : Nat) : Cpu := { c with af := c.af.set_high v }

/-- Embedding of `Cpu::add8_with_carry`.  `(!b).wrapping_add(1)` on `u8` is
`(255 - b + 1) % 256`, `overflowing_add` produces the wrapped sum together
with the overflow test, and `& 0xf` is `% 16`. -/
def add8_with_carry (cpu : Cpu) (b : Nat) (use_carry subtraction : Bool) : Cpu :=
  let a := cpu.af.get_high
  let c : Nat := if use_carry && cpu.get_carry_flag then 1 else 0
  let operand := if subtraction then wrap8 (255 - b + 1) else b
  let c_operand := if subtraction then wrap8 (255 - c + 1) else c
  let sum1 := wrap8 (a + operand)
  let carry1 := decide (256 ≤ a + operand)
  let sum := wrap8 (sum1 + c_operand)
  let carry2 := decide (256 ≤ sum1 + c_operand)
  let zero := sum == 0
  let half_carry :=
    if subtraction then
      if use_carry && c == 1 && b % 16 == 15 then true
      else decide (a % 16 < b % 16 + c % 16)
    else decide (16 ≤ a % 16 + b % 16 + c)
  let carry :=
    if subtraction then
      if use_carry && c == 1 && b == 255 then true
      else decide (a < b + c)
    else carry1 || carry2
  let cpu := { cpu with af := cpu.af.set_high sum }
  let cpu := cpu.set_zero_flag_from_bool zero
  let cpu := cpu.set_subtraction_flag_from_bool subtraction
  let cpu := cpu.set_carry_flag_from_bool carry
  cpu.set_half_carry_flag_from_bool half_carry

end Cpu

/-! Instruction representation, from src/gbc/cpu/instruction.rs.  Signed 8-bit
immediates are embedded as `Int` (values in -128..127). -/

inductive Register where
  | a
  | b
  | c
  | d
  | e
  | h
  | l
  | bc
  | de
  | hl
  | sp
  | hl_plus
  | hl_minus
  | af
deriving Repr, DecidableEq

inductive DerefOperand where
  | register (r : Register)
  | address (addr : Nat)
  | ff00_offset (offset : Nat)
  | ff00_plus_c
deriving Repr, DecidableEq

inductive Operand where
  | register (r : Register)
  | i8 (v : Int)
  | u8 (v : Nat)
  | u16 (v : Nat)
  | deref (d : DerefOperand)
  | stack_offset (v : Int)
deriving Repr, DecidableEq

inductive ConditionType where
  | non_zero
  | zero
  | not_carry
  | carry
deriving Repr, DecidableEq

inductive Opcode where
  | unknown (opcode : Nat)
  | nop
  | stop
  | halt
  | ld8 (destination source : Operand)
  | ld16 (destination source : Operand)
  | jp (destination : Operand)
  | jp_cond (condition : ConditionType) (destination : Nat)
  | jr (offset : Int)
  | jr_cond (condition : ConditionType) (offset : Int)
  | call (destination : Nat)
  | call_cond (condition : ConditionType) (destination : Nat)
  | ret
  | ret_cond (condition : ConditionType)
  | reti
  | pop (register : Register)
  | push (register : Register)
  | rst (vector : Nat)
  | bit (bit : Nat) (destination : Operand)
  | res (bit : Nat) (destination : Operand)
  | set (bit : Nat) (destination : Operand)
  | add8 (operand : Operand)
  | add16 (register : Register) (operand : Operand)
  | inc (operand : Operand)
  | inc16 (register : Register)
  | dec (operand : Operand)
  | dec16 (register : Register)
  | adc (operand : Operand)
  | sub (operand : Operand)
  | sbc (operand : Operand)
  | and (operand : Operand)
  | xor (operand : Operand)
  | or (operand : Operand)
  | cp (operand : Operand)
  | cpl
  | daa
  | rlca
  | rla
  | rrca
  | rra
  | rlc (operand : Operand)
  | rl (operand : Operand)
  | rrc (operand : Operand)
  | rr (operand : Operand)
  | sla (operand : Operand)
  | swap (operand : Operand)
  | sra (operand : Operand)
  | srl (operand : Operand)
  | scf
  | ccf
  | di
  | ei
deriving Repr

namespace Opcode

/-- Embedding of `Opcode::size` (the statically computed instruction size). -/
def size (op : Opcode) : Nat :=
  match op with
  | .unknown _ => 1
  | .nop => 1
  | .stop => 2
  | .halt => 1
  | .ld8 destination source =>
    match source, destination with
    | .u8 _, _ => 2
    | .deref (.ff00_offset _), _ => 2
    | .deref (.address _), _ => 3
    | _, .deref (.address _) => 3
    | _, .deref (.ff00_offset _) => 2
    | _, _ => 1
  | .ld16 destination source =>
    match destination, source with
    | .deref (.address _), _ => 3
    | _, .u16 _ => 3
    | _, .stack_offset _ => 2
    | _, _ => 1
  | .jp destination =>
    match destination with
    | .register .hl => 1
    | _ => 3
  | .jp_cond _ _ => 3
  | .jr _ => 2
  | .jr_cond _ _ => 2
  | .call _ => 3
  | .call_cond _ _ => 3
  | .ret => 1
  | .ret_cond _ => 1
  | .reti => 1
  | .pop _ => 1
  | .push _ => 1
  | .rst _ => 1
  | .bit _ _ => 2
  | .res _ _ => 2
  | .set _ _ => 2
  | .add8 operand => match operand with | .u8 _ => 2 | _ => 1
  | .add16 _ operand =>
    match operand with
    | .i8 _ => 2
    | .stack_offset _ => 2
    | _ => 1
  | .inc _ => 1
  | .inc16 _ => 1
  | .dec _ => 1
  | .dec16 _ => 1
  | .adc operand => match operand with | .u8 _ => 2 | _ => 1
  | .sub operand => match operand with | .u8 _ => 2 | _ => 1
  | .sbc operand => match operand with | .u8 _ => 2 | _ => 1
  | .and operand => match operand with | .u8 _ => 2 | _ => 1
  | .xor operand => match operand with | .u8 _ => 2 | _ => 1
  | .or operand => match operand with | .u8 _ => 2 | _ => 1
  | .cp operand => match operand with | .u8 _ => 2 | _ => 1
  | .cpl => 1
  | .daa => 1
  | .rlca => 1
  | .rla => 1
  | .rrca => 1
  | .rra => 1
  | .rlc _ => 2
  | .rl _ => 2
  | .rrc _ => 2
  | .rr _ => 2
  | .sla _ => 2
  | .swap _ => 2
  | .sra _ => 2
  | .srl _ => 2
  | .scf => 1
  | .ccf => 1
  | .di => 1
  | .ei => 1

end Opcode

/-- Embedding of `Instruction` (the decoded opcode together with its address). -/
structure Instruction where
  address : Nat
  op : Opcode
deriving Repr

def Instruction.size (i : Instruction) : Nat := i.op.size

/-! Debugger breakpoint data, from src/gbc/debug.rs (used by the memory bus). -/

inductive AccessType where
  | read
  | write
  | execute
  | read_write
  | read_execute
  | write_execute
  | read_write_execute
deriving Repr, DecidableEq

def AccessType.on_read (a : AccessType) : Bool :=
  match a with
  | .read | .read_write | .read_execute | .read_write_execute => true
  | _ => false

def AccessType.on_write (a : AccessType) : Bool :=
  match a with
  | .write | .read_write | .write_execute | .read_write_execute => true
  | _ => false

inductive BreakReason where
  | user
deriving Repr, DecidableEq

structure Breakpoint where
  address : Nat
  access_type : AccessType
  length : Nat
  reason : BreakReason
deriving Repr, DecidableEq

def Breakpoint.matches_address (bp : Breakpoint) (address : Nat) : Bool :=
  bp.address ≤ address && address < bp.address + bp.length

/-! Joypad, from src/gbc/mmio/joypad.rs.  Only the MMIO register surface is
embedded (`set_input_state` is host-driven and not needed by any claim). -/

structure Joypad where
  input : Nat
  selected : Nat
deriving Repr, DecidableEq

def Joypad.initial : Joypad := { input := 0xff, selected := 0 }

def Joypad.write_u8 (j : Joypad) (byte : Nat) : Joypad :=
  { j with selected := byte &&& 0x30 }

def Joypad.read_u8 (j : Joypad) : Option Nat :=
  let key_selection := (j.selected &&& 0b00110000) >>> 4
  match key_selection with
  | 0 | 3 => some (0b11000000 ||| j.selected ||| 0b1111)
  | 1 => some (0b11000000 ||| j.selected ||| (j.input &&& 0b1111))
  | 2 => some (0b11000000 ||| j.selected ||| ((j.input >>> 4) &&& 0b1111))
  | _ => none

/-! Timer, from src/gbc/mmio/timer.rs.  `tick` is not needed by any claim. -/

structure Timer where
  divider : Nat
  timer_counter : Nat
  timer_reset_value : Nat
  control : Nat
  div_cycles_counter : Nat
  tma_cycles_counter : Nat
deriving Repr, DecidableEq

def Timer.initial : Timer :=
  { divider := 0x18, timer_counter := 0, timer_reset_value := 0, control := 0,
    div_cycles_counter := 0, tma_cycles_counter := 0 }

def Timer.read_u8 (t : Timer) (offset : Nat) : Option Nat :=
  match offset with
  | 0 => some t.divider
  | 1 => some t.timer_counter
  | 2 => some t.timer_reset_value
  | 3 => some t.control
  | _ => none

def Timer.write_u8 (t : Timer) (offset byte : Nat) : Option Timer :=
  match offset with
  | 0 => some { t with divider := 0 }
  | 1 => some { t with timer_counter := byte }
  | 2 => some { t with timer_reset_value := byte }
  | 3 => some { t with control := byte &&& 0x7 }
  | _ => none

/-! Serial port, from src/gbc/mmio/serial.rs.  The output file handle is not
state visible through the register surface and is omitted; `tick` is not
needed by any claim. -/

structure Comms where
  io_register : Nat
  control : Nat
  io_register_on_control_byte_write : Nat
  ticks : Nat
  bits_written : Nat
  out_byte : Nat
deriving Repr, DecidableEq

def Comms.initial : Comms :=
  { io_register := 0, control := 0, io_register_on_control_byte_write := 0,
    ticks := 0, bits_written := 0, out_byte := 0 }

def Comms.read_u8 (s : Comms) (offset : Nat) : Option Nat :=
  match offset with
  | 0 => some s.io_register
  | 1 => some s.control
  | _ => none

def Comms.write_u8 (s : Comms) (offset byte : Nat) : Option Comms :=
  match offset with
  | 0 => some { s with io_register := byte }
  | 1 =>
    let s := { s with control := byte }
    if byte &&& 0x80 ≠ 0 then
      some { s with io_register_on_control_byte_write := s.io_register }
    else
      some s
  | _ => none

/-! Sound registers, from src/gbc/mmio/apu.rs. -/

structure SoundChannel1 where
  sweep_control : Nat
  sound_length_duty : Nat
  volume_envelope : Nat
  frequency_low : Nat
  frequency_high : Nat
deriving Repr, DecidableEq

structure SoundChannel2 where
  sound_length_duty : Nat
  volume_envelope : Nat
  frequency_low : Nat
  frequency_high : Nat
deriving Repr, DecidableEq

structure SoundDigitalChannel where
  is_on : Bool
  length : Nat
  volume : Nat
  frequency_low : Nat
  frequency_high : Nat
  wave_ram : Nat → Nat

structure SoundNoiseChannel where
  length : Nat
  volume : Nat
  polynomial_counter : Nat
  counter : Nat
deriving Repr, DecidableEq

structure Sound where
  channel1 : SoundChannel1
  channel2 : SoundChannel2
  digital_channel : SoundDigitalChannel
  noise_channel : SoundNoiseChannel
  channel_control : Nat
  sound_output_control : Nat
  sound_on_off_control : Nat

def Sound.initial : Sound :=
  { channel1 := ⟨0, 0, 0, 0, 0⟩
    channel2 := ⟨0, 0, 0, 0⟩
    digital_channel := ⟨false, 0, 0, 0, 0, fun _ => 0⟩
    noise_channel := ⟨0, 0, 0, 0⟩
    channel_control := 0, sound_output_control := 0, sound_on_off_control := 0 }

def Sound.read_u8 (s : Sound) (offset : Nat) : Option Nat :=
  match offset with
  | 0x0 => some s.channel1.sweep_control
  | 0x1 => some s.channel1.sound_length_duty
  | 0x2 => some s.channel1.volume_envelope
  | 0x3 => some 0
  | 0x4 => some s.channel1.frequency_high
  | 0x5 => some 0
  | 0x6 => some s.channel2.sound_length_duty
  | 0x7 => some s.channel2.volume_envelope
  | 0x8 => some 0
  | 0x9 => some s.channel2.frequency_high
  | 0xa => some (if s.digital_channel.is_on then 1 else 0)
  | 0xb => some s.digital_channel.length
  | 0xc => some s.digital_channel.volume
  | 0xd => some s.digital_channel.frequency_low
  | 0xe => some s.digital_channel.frequency_high
  | 0xf => some 0
  | 0x10 => some s.noise_channel.length
  | 0x11 => some s.noise_channel.volume
  | 0x12 => some s.noise_channel.polynomial_counter
  | 0x13 => some s.noise_channel.counter
  | 0x14 => some s.channel_control
  | 0x15 => some s.sound_output_control
  | 0x16 => some s.sound_on_off_control
  | _ => none

def Sound.write_u8 (s : Sound) (offset byte : Nat) : Option Sound :=
  match offset with
  | 0x0 => some { s with channel1.sweep_control := byte }
  | 0x1 => some { s with channel1.sound_length_duty := byte }
  | 0x2 => some { s with channel1.volume_envelope := byte }
  | 0x3 => some { s with channel1.frequency_low := byte }
  | 0x4 => some { s with channel1.frequency_high := byte }
  | 0x5 => some s
  | 0x6 => some { s with channel2.sound_length_duty := byte }
  | 0x7 => some { s with channel2.volume_envelope := byte }
  | 0x8 => some { s with channel2.frequency_low := byte }
  | 0x9 => some { s with channel2.frequency_high := byte }
  | 0xa => some { s with digital_channel.is_on := byte ≠ 0 }
  | 0xb => some { s with digital_channel.length := byte }
  | 0xc => some { s with digital_channel.volume := byte }
  | 0xd => some { s with digital_channel.frequency_low := byte }
  | 0xe => some { s with digital_channel.frequency_high := byte }
  | 0xf => some s
  | 0x10 => some { s with noise_channel.length := byte }
  | 0x11 => some { s with noise_channel.volume := byte }
  | 0x12 => some { s with noise_channel.polynomial_counter := byte }
  | 0x13 => some { s with noise_channel.counter := byte }
  | 0x14 => some { s with channel_control := byte }
  | 0x15 => some { s with sound_output_control := byte }
  | 0x16 => some { s with sound_on_off_control := byte }
  | _ => none

def Sound.read_u8_from_waveform (s : Sound) (offset : Nat) : Option Nat :=
  if offset < 16 then some (s.digital_channel.wave_ram offset) else none

def Sound.write_u8_from_waveform (s : Sound) (offset byte : Nat) : Option Sound :=
  if offset < 16 then
    some { s with digital_channel.wave_ram :=
      fun i => if i = offset then byte else s.digital_channel.wave_ram i }
  else none

/-! Cartridge with MBC1 banking, from src/gbc/cartridge.rs.  The ROM image is
a total byte function together with the header-declared size `rom_size`
(out-of-range `Vec` indexing, a panic in the source, is not reachable in
anything proved below); the pure header metadata fields (title, checksums,
...) play
no role in the banking functions and are omitted.  `u8` casts truncate with
`% 256` and `u8` subtraction wraps (release-build semantics). -/

structure Cartridge where
  rom : Nat → Nat
  rom_size : Nat
  external_ram : Nat → Nat
  external_ram_len : Nat
  enable_external_ram : Bool
  rom_bank_selected : Nat
  advanced_banking_mode : Bool

def Cartridge.read_rom_bank_0 (c : Cartridge) (offset : Nat) : Nat :=
  c.rom offset

def Cartridge.write_rom_bank_0 (c : Cartridge) (offset byte : Nat) : Option Cartridge :=
  if offset ≤ 0x1fff then
    some { c with enable_external_ram := (byte &&& 0xf) == 0x0a }
  else if offset ≤ 0x3fff then
    let bank := byte &&& 0x1f
    let bank := if bank = 0 then 1 else bank
    let available_banks := (c.rom_size / 16384) % 256
    some { c with rom_bank_selected := bank &&& wrap8 (available_banks + 255) }
  else
    none

def Cartridge.read_rom_selected_bank (c : Cartridge) (offset : Nat) : Nat :=
  c.rom (offset + 16384 * c.rom_bank_selected)

def Cartridge.write_rom_selected_bank (c : Cartridge) (offset byte : Nat) :
    Option Cartridge :=
  if offset ≤ 0x1fff then
    if c.advanced_banking_mode then
      none
    else
      let bank := ((byte &&& 0x3) <<< 5) ||| (c.rom_bank_selected ||| 0x1f)
      let available_banks := (c.rom_size / 16384) % 256
      some { c with rom_bank_selected := bank &&& wrap8 (available_banks + 255) }
  else if offset ≤ 0x3fff then
    some { c with advanced_banking_mode := (byte &&& 1) ≠ 0 }
  else
    none

def Cartridge.read_from_external_ram (c : Cartridge) (offset : Nat) : Nat :=
  if !c.enable_external_ram then 0xff
  else if offset < c.external_ram_len then c.external_ram offset
  else 0x00

def Cartridge.write_to_external_ram (c : Cartridge) (offset v : Nat) : Cartridge :=
  if c.enable_external_ram && offset < c.external_ram_len then
    { c with external_ram := fun i => if i = offset then v else c.external_ram i }
  else c

/-! LCD register block, from src/gbc/mmio/lcd.rs, together with the two tile
related enums it uses from src/gbc/ppu.rs (`TileAddressingMethod`) because the
`Control` conversions depend on them. -/

inductive Color where
  | white
  | light_gray
  | dark_gray
  | black
deriving Repr, DecidableEq

/-- Embedding of `impl From<u8> for Color`.  The source marks values above 3 as
unreachable; every caller masks its argument by `& 0x3` first, and the final
branch here is only ever taken with the value 3. -/
def Color.from_u8 (x : Nat) : Color :=
  if x = 0 then .white
  else if x = 1 then .light_gray
  else if x = 2 then .dark_gray
  else .black

def Color.to_u8 (c : Color) : Nat :=
  match c with
  | .white => 0
  | .light_gray => 1
  | .dark_gray => 2
  | .black => 3

inductive ColorIndex where
  | color0
  | color1
  | color2
  | color3
deriving Repr, DecidableEq

/-- Embedding of `ColorIndex::new`; callers pass two-bit values only, so the
final branch is only ever taken with the value 3. -/
def ColorIndex.new (color : Nat) : ColorIndex :=
  if color = 0 then .color0
  else if color = 1 then .color1
  else if color = 2 then .color2
  else .color3

/-- The `[Color; 4]` palette array is embedded as four named fields. -/
structure Palette where
  color0 : Color
  color1 : Color
  color2 : Color
  color3 : Color
deriving Repr, DecidableEq

def Palette.from_u8 (v : Nat) : Palette :=
  { color0 := Color.from_u8 (v &&& 0x3)
    color1 := Color.from_u8 ((v >>> 2) &&& 0x3)
    color2 := Color.from_u8 ((v >>> 4) &&& 0x3)
    color3 := Color.from_u8 ((v >>> 6) &&& 0x3) }

def Palette.to_u8 (p : Palette) : Nat :=
  (p.color3.to_u8 <<< 6) ||| (p.color2.to_u8 <<< 4) ||| (p.color1.to_u8 <<< 2) |||
    p.color0.to_u8

def Palette.get_color (p : Palette) (index : ColorIndex) : Color :=
  match index with
  | .color0 => p.color0
  | .color1 => p.color1
  | .color2 => p.color2
  | .color3 => p.color3

inductive TileMap where
  | from9800
  | from9C00
deriving Repr, DecidableEq

def TileMap.from_bool (v : Bool) : TileMap := if v then .from9C00 else .from9800

def TileMap.to_bool (t : TileMap) : Bool :=
  match t with
  | .from9800 => false
  | .from9C00 => true

inductive SpriteSize where
  | small
  | large
deriving Repr, DecidableEq

/-- Embedding of `impl From<bool> for SpriteSize`: true maps to Small. -/
def SpriteSize.from_bool (v : Bool) : SpriteSize := if v then .small else .large

/-- Embedding of `impl From<SpriteSize> for bool`: Small maps to false. -/
def SpriteSize.to_bool (s : SpriteSize) : Bool :=
  match s with
  | .small => false
  | .large => true

/-- From src/gbc/ppu.rs: tile addressing with its offset payload (`u8` for the
0x8000 base, `i8` for the signed 0x9000 base). -/
inductive TileAddressingMethod where
  | from8000 (offset : Nat)
  | from9000 (offset : Int)
deriving Repr, DecidableEq

/-- Embedding of `TileAddressingMethod::set_offset`; the `as i8` cast
reinterprets the byte as a signed value. -/
def TileAddressingMethod.set_offset (t : TileAddressingMethod) (offset : Nat) :
    TileAddressingMethod :=
  match t with
  | .from8000 _ => .from8000 offset
  | .from9000 _ =>
    .from9000 (if offset % 256 < 128 then (offset % 256 : Int) else (offset % 256 : Int) - 256)

/-- Embedding of `impl From<bool> for TileAddressingMethod`: true maps to
From8000(0). -/
def TileAddressingMethod.from_bool (v : Bool) : TileAddressingMethod :=
  if v then .from8000 0 else .from9000 0

/-- Embedding of `impl From<TileAddressingMethod> for bool`: From8000 maps to
false. -/
def TileAddressingMethod.to_bool (t : TileAddressingMethod) : Bool :=
  match t with
  | .from8000 _ => false
  | .from9000 _ => true

/-- LCDC fields; the source `Flag` type is embedded as `Bool`. -/
structure Control where
  enable : Bool
  window_tile_map : TileMap
  window_enable : Bool
  tile_addressing_mode : TileAddressingMethod
  bg_tile_map : TileMap
  sprite_size : SpriteSize
  sprite_enable : Bool
  bg_window_enable_or_priority : Bool
deriving Repr, DecidableEq

/-- Embedding of `impl From<u8> for Control`. -/
def Control.from_u8 (v : Nat) : Control :=
  { enable := (v >>> 7) == 1
    window_tile_map := TileMap.from_bool (((v >>> 6) &&& 1) == 1)
    window_enable := ((v >>> 5) &&& 1) == 1
    tile_addressing_mode := TileAddressingMethod.from_bool (((v >>> 4) &&& 1) == 1)
    bg_tile_map := TileMap.from_bool (((v >>> 3) &&& 1) == 1)
    sprite_size := SpriteSize.from_bool (((v >>> 2) &&& 1) == 1)
    sprite_enable := ((v >>> 1) &&& 1) == 1
    bg_window_enable_or_priority := (v &&& 1) == 1 }

/-- Embedding of `impl From<Control> for u8`: the source builds the byte by
or-ing each field into the low bit and shifting left, starting from the
`bg_window_enable_or_priority` field. -/
def Control.to_u8 (lcd : Control) : Nat :=
  let x : Nat := 0
  let x := x ||| (if lcd.bg_window_enable_or_priority then 1 else 0)
  let x := x <<< 1
  let x := x ||| (if lcd.sprite_enable then 1 else 0)
  let x := x <<< 1
  let x := x ||| (if lcd.sprite_size.to_bool then 1 else 0)
  let x := x <<< 1
  let x := x ||| (if lcd.bg_tile_map.to_bool then 1 else 0)
  let x := x <<< 1
  let x := x ||| (if lcd.tile_addressing_mode.to_bool then 1 else 0)
  let x := x <<< 1
  let x := x ||| (if lcd.window_enable then 1 else 0)
  let x := x <<< 1
  let x := x ||| (if lcd.window_tile_map.to_bool then 1 else 0)
  let x := x <<< 1
  x ||| (if lcd.enable then 1 else 0)

inductive LycCompareType where
  | not_equal
  | equal
deriving Repr, DecidableEq

def LycCompareType.from_bool (v : Bool) : LycCompareType :=
  if v then .equal else .not_equal

def LycCompareType.to_bool (t : LycCompareType) : Bool :=
  match t with
  | .not_equal => false
  | .equal => true

inductive LcdStatusMode where
  | in_hblank
  | in_vblank
  | searching_oam
  | transferring_data_to_lcd
deriving Repr, DecidableEq

/-- Embedding of `impl From<u8> for LcdStatusMode`; callers mask by `& 0x3`,
so the final branch is only ever taken with the value 3. -/
def LcdStatusMode.from_u8 (v : Nat) : LcdStatusMode :=
  if v = 0 then .in_hblank
  else if v = 1 then .in_vblank
  else if v = 2 then .searching_oam
  else .transferring_data_to_lcd

def LcdStatusMode.to_u8 (m : LcdStatusMode) : Nat :=
  match m with
  | .in_hblank => 0
  | .in_vblank => 1
  | .searching_oam => 2
  | .transferring_data_to_lcd => 3

structure Status where
  interrupt_on_lyc : Bool
  interrupt_on_oam : Bool
  interrupt_on_vblank : Bool
  interrupt_on_hblank : Bool
  lyc_compare_type : LycCompareType
  mode : LcdStatusMode
deriving Repr, DecidableEq

def Status.from_u8 (v : Nat) : Status :=
  { interrupt_on_lyc := ((v >>> 6) &&& 1) == 1
    interrupt_on_oam := ((v >>> 5) &&& 1) == 1
    interrupt_on_vblank := ((v >>> 4) &&& 1) == 1
    interrupt_on_hblank := ((v >>> 3) &&& 1) == 1
    lyc_compare_type := LycCompareType.from_bool (((v >>> 2) &&& 1) == 1)
    mode := LcdStatusMode.from_u8 (v &&& 0x3) }

def Status.to_u8 (status : Status) : Nat :=
  let x : Nat := 0
  let x := x ||| (if status.interrupt_on_lyc then 1 else 0)
  let x := x <<< 1
  let x := x ||| (if status.interrupt_on_oam then 1 else 0)
  let x := x <<< 1
  let x := x ||| (if status.interrupt_on_vblank then 1 else 0)
  let x := x <<< 1
  let x := x ||| (if status.interrupt_on_hblank then 1 else 0)
  let x := x <<< 1
  let x := x ||| (if status.lyc_compare_type.to_bool then 1 else 0)
  let x := x <<< 2
  x ||| status.mode.to_u8

/-- The LCD register file.  `lx` is signed in the source (`i16`) and embedded
as `Int`. -/
structure Lcd where
  control : Control
  status : Status
  scroll_y : Nat
  scroll_x : Nat
  ly : Nat
  ly_compare : Nat
  dma_start_high_byte : Nat
  background_palette : Palette
  object_palette_0 : Palette
  object_pallete_1 : Palette
  window_y : Nat
  window_x : Nat
  lx : Int
  last_stat_interrupt : Bool
  dma_running : Bool
  dma_low_byte : Nat
deriving Repr, DecidableEq

/-- Embedding of `impl Default for Lcd`. -/
def Lcd.initial : Lcd :=
  { control := Control.from_u8 0x91
    status := Status.from_u8 0x85
    scroll_y := 0
    scroll_x := 0
    ly := 0
    ly_compare := 0
    dma_start_high_byte := 0xff
    background_palette := Palette.from_u8 0xfc
    object_palette_0 := Palette.from_u8 0xff
    object_pallete_1 := Palette.from_u8 0xff
    window_y := 0
    window_x := 0
    lx := -80
    last_stat_interrupt := true
    dma_running := false
    dma_low_byte := 0 }

def Lcd.read_u8 (l : Lcd) (offset : Nat) : Option Nat :=
  match offset with
  | 0x0 => some l.control.to_u8
  | 0x1 => some l.status.to_u8
  | 0x2 => some l.scroll_y
  | 0x3 => some l.scroll_x
  | 0x4 => some l.ly
  | 0x5 => some l.ly_compare
  | 0x6 => some l.dma_start_high_byte
  | 0x7 => some l.background_palette.to_u8
  | 0x8 => some l.object_palette_0.to_u8
  | 0x9 => some l.object_pallete_1.to_u8
  | 0xa => some l.window_y
  | 0xb => some l.window_x
  | _ => none

def Lcd.write_u8 (l : Lcd) (offset byte : Nat) : Option Lcd :=
  match offset with
  | 0x0 => some { l with control := Control.from_u8 byte }
  | 0x1 => some { l with status := Status.from_u8 byte }
  | 0x2 => some { l with scroll_y := byte }
  | 0x3 => some { l with scroll_x := byte }
  | 0x4 => some l
  | 0x5 => some { l with ly_compare := byte }
  | 0x6 =>
    some { l with dma_start_high_byte := byte, dma_low_byte := 0, dma_running := true }
  | 0x7 => some { l with background_palette := Palette.from_u8 byte }
  | 0x8 => some { l with object_palette_0 := Palette.from_u8 byte }
  | 0x9 => some { l with object_pallete_1 := Palette.from_u8 byte }
  | 0xa => some { l with window_y := byte }
  | 0xb => some { l with window_x := byte }
  | _ => none

/-- Embedding of `Lcd::tick`: advances `lx`/`ly` (with `ly += 1` wrapping as a
`u8`), computes the stat-interrupt signal, and reports a stat interrupt when
the signal differs from the previous one.  Returns the updated LCD together
with `(vblank_interrupt, should_stat_interrupt)`. -/
def Lcd.tick (l : Lcd) : Lcd × Bool × Bool :=
  let vblank_interrupt := false
  let stat_interrupt := false
  let l := { l with lx := l.lx + 1 }
  let l := if l.lx > 376 then { l with ly := wrap8 (l.ly + 1), lx := 0 } else l
  let vblank_interrupt := if l.ly = 144 then true else vblank_interrupt
  let l := if !(l.ly == 144) && l.ly == 154 then { l with ly := 0 } else l
  let stat_interrupt :=
    if l.status.interrupt_on_hblank && l.lx == 160 then true else stat_interrupt
  let stat_interrupt :=
    if l.status.interrupt_on_vblank && l.ly == 144 then true else stat_interrupt
  let stat_interrupt :=
    if l.status.interrupt_on_lyc && l.ly == l.ly_compare then true else stat_interrupt
  let should_stat_interrupt := l.last_stat_interrupt ≠ stat_interrupt
  ({ l with last_stat_interrupt := stat_interrupt },
    vblank_interrupt, should_stat_interrupt)

def Lcd.get_lcd_enable (l : Lcd) : Bool := l.control.enable

def Lcd.get_ly (l : Lcd) : Nat := l.ly

def Lcd.get_lx (l : Lcd) : Int := l.lx

def Lcd.get_scroll_offsets (l : Lcd) : Nat × Nat := (l.scroll_x, l.scroll_y)

def Lcd.get_background_palette (l : Lcd) : Palette := l.background_palette

def Lcd.get_addressing_mode (l : Lcd) : TileAddressingMethod :=
  l.control.tile_addressing_mode

def Lcd.get_background_tile_map (l : Lcd) : TileMap := l.control.bg_tile_map

def Lcd.get_background_window_priority (l : Lcd) : Bool :=
  l.control.bg_window_enable_or_priority

def Lcd.get_sprite_enable (l : Lcd) : Bool := l.control.sprite_enable

def Lcd.get_sprite_size (l : Lcd) : SpriteSize := l.control.sprite_size

def Lcd.get_object_palettes (l : Lcd) : Palette × Palette :=
  (l.object_palette_0, l.object_pallete_1)

def Lcd.get_window_enable (l : Lcd) : Bool := l.control.window_enable

def Lcd.get_window_coords (l : Lcd) : Nat × Nat := (l.window_x, l.window_y)

def Lcd.get_window_tile_map (l : Lcd) : TileMap := l.control.window_tile_map

def Lcd.get_dma_running (l : Lcd) : Bool := l.dma_running

def Lcd.get_dma_addresses (l : Lcd) : Option (Nat × Nat) :=
  if l.dma_running then
    some ((l.dma_start_high_byte <<< 8) ||| l.dma_low_byte,
      0xfe00 ||| l.dma_low_byte)
  else
    none

/-- Embedding of `Lcd::tick_dma` (`dma_low_byte` is a `u8` and the increment
wraps). -/
def Lcd.tick_dma (l : Lcd) : Lcd :=
  let l := { l with dma_low_byte := wrap8 (l.dma_low_byte + 1) }
  if l.dma_low_byte = 0xa0 then { l with dma_running := false } else l

/-! PPU, from src/gbc/ppu.rs. -/

/-- A 16-byte tile; the `[u8; 16]` array is a byte function on indices 0..15. -/
structure Tile where
  lines : Nat → Nat

/-- Embedding of `Tile::get_color`; callers always pass `x < 8` and `y < 8`
(the source asserts this). -/
def Tile.get_color (t : Tile) (x y : Nat) : ColorIndex :=
  let bit_index := 7 - x
  let index := 2 * y
  let byte1 := t.lines index
  let byte2 := t.lines (index + 1)
  let bit1 := (byte1 >>> bit_index) &&& 1
  let bit2 := (byte2 >>> bit_index) &&& 1
  ColorIndex.new ((bit2 <<< 1) ||| bit1)

/-- VRAM: three 128-tile blocks and two 32-by-32 maps, each embedded as a
function on indices. -/
structure VideoRam where
  tile_block_0 : Nat → Tile
  tile_block_1 : Nat → Tile
  tile_block_2 : Nat → Tile
  background_map_0 : Nat → Nat
  background_map_1 : Nat → Nat

def VideoRam.initial : VideoRam :=
  { tile_block_0 := fun _ => ⟨fun _ => 0⟩
    tile_block_1 := fun _ => ⟨fun _ => 0⟩
    tile_block_2 := fun _ => ⟨fun _ => 0⟩
    background_map_0 := fun _ => 0
    background_map_1 := fun _ => 0 }

def VideoRam.read (v : VideoRam) (offset : Nat) : Option Nat :=
  if offset ≤ 0x07ff then
    some ((v.tile_block_0 (offset / 16)).lines (offset % 16))
  else if offset ≤ 0x0fff then
    let offset := offset - 0x0800
    some ((v.tile_block_1 (offset / 16)).lines (offset % 16))
  else if offset ≤ 0x17ff then
    let offset := offset - 0x1000
    some ((v.tile_block_2 (offset / 16)).lines (offset % 16))
  else if offset ≤ 0x1bff then
    some (v.background_map_0 (offset - 0x1800))
  else if offset ≤ 0x1fff then
    some (v.background_map_1 (offset - 0x1c00))
  else
    none

/-- Update one byte of a tile function at tile index `ti`, line byte `li`. -/
def update_tile_block (blk : Nat → Tile) (ti li byte : Nat) : Nat → Tile :=
  fun i =>
    if i = ti then ⟨fun j => if j = li then byte else (blk ti).lines j⟩ else blk i

def VideoRam.write (v : VideoRam) (offset byte : Nat) : Option VideoRam :=
  if offset ≤ 0x07ff then
    some { v with tile_block_0 := update_tile_block v.tile_block_0 (offset / 16) (offset % 16) byte }
  else if offset ≤ 0x0fff then
    let offset := offset - 0x0800
    some { v with tile_block_1 := update_tile_block v.tile_block_1 (offset / 16) (offset % 16) byte }
  else if offset ≤ 0x17ff then
    let offset := offset - 0x1000
    some { v with tile_block_2 := update_tile_block v.tile_block_2 (offset / 16) (offset % 16) byte }
  else if offset ≤ 0x1bff then
    let offset := offset - 0x1800
    some { v with background_map_0 := fun i => if i = offset then byte else v.background_map_0 i }
  else if offset ≤ 0x1fff then
    let offset := offset - 0x1c00
    some { v with background_map_1 := fun i => if i = offset then byte else v.background_map_1 i }
  else
    none

def VideoRam.read_tile (v : VideoRam) (addressing_method : TileAddressingMethod) : Tile :=
  match addressing_method with
  | .from8000 offset =>
    if offset > 127 then v.tile_block_1 (offset - 128) else v.tile_block_0 offset
  | .from9000 offset =>
    if offset < 0 then v.tile_block_1 (128 + offset).toNat else v.tile_block_2 offset.toNat

inductive SpritePaletteNumber where
  | palette0
  | palette1
deriving Repr, DecidableEq

/-- Embedding of `SpritePaletteNumber::new`; callers pass a single bit. -/
def SpritePaletteNumber.new (v : Nat) : SpritePaletteNumber :=
  if v = 0 then .palette0 else .palette1

def SpritePaletteNumber.to_u8 (p : SpritePaletteNumber) : Nat :=
  match p with
  | .palette0 => 0
  | .palette1 => 1

inductive SpriteVideoRamBank where
  | bank0
  | bank1
deriving Repr, DecidableEq

/-- Embedding of `SpriteVideoRamBank::new`; callers pass a single bit. -/
def SpriteVideoRamBank.new (v : Nat) : SpriteVideoRamBank :=
  if v = 0 then .bank0 else .bank1

def SpriteVideoRamBank.to_u8 (b : SpriteVideoRamBank) : Nat :=
  match b with
  | .bank0 => 0
  | .bank1 => 1

structure SpriteAttributes where
  behind_background : Bool
  flip_y : Bool
  flip_x : Bool
  gb_palette_number : SpritePaletteNumber
  cgb_vram_bank : SpriteVideoRamBank
  cgb_palette_number : Nat
deriving Repr, DecidableEq

def SpriteAttributes.from_u8 (v : Nat) : SpriteAttributes :=
  { behind_background := (v >>> 7) ≠ 0
    flip_y := ((v >>> 6) &&& 1) ≠ 0
    flip_x := ((v >>> 5) &&& 1) ≠ 0
    gb_palette_number := SpritePaletteNumber.new ((v >>> 4) &&& 1)
    cgb_vram_bank := SpriteVideoRamBank.new ((v >>> 3) &&& 1)
    cgb_palette_number := v &&& 3 }

def SpriteAttributes.to_u8 (a : SpriteAttributes) : Nat :=
  ((if a.behind_background then 1 else 0) <<< 7) |||
  ((if a.flip_y then 1 else 0) <<< 6) |||
  ((if a.flip_x then 1 else 0) <<< 5) |||
  (a.gb_palette_number.to_u8 <<< 4) |||
  (a.cgb_vram_bank.to_u8 <<< 3) |||
  a.cgb_palette_number

structure Sprite where
  y : Nat
  x : Nat
  tile_number : Nat
  attributes : SpriteAttributes
deriving Repr, DecidableEq

def Sprite.read (s : Sprite) (offset : Nat) : Option Nat :=
  match offset with
  | 0 => some s.y
  | 1 => some s.x
  | 2 => some s.tile_number
  | 3 => some s.attributes.to_u8
  | _ => none

def Sprite.write (s : Sprite) (offset byte : Nat) : Option Sprite :=
  match offset with
  | 0 => some { s with y := byte }
  | 1 => some { s with x := byte }
  | 2 => some { s with tile_number := byte }
  | 3 => some { s with attributes := SpriteAttributes.from_u8 byte }
  | _ => none

def Sprite.initial : Sprite :=
  { y := 0, x := 0, tile_number := 0
    attributes := ⟨false, false, false, .palette0, .bank0, 0⟩ }

/-- The source's `Ord for Sprite` compares `other.x.cmp(&self.x)`, so a sprite
counts as strictly greater (for the max-heap) exactly when its `x` is strictly
smaller. -/
def Sprite.heap_gt (self other : Sprite) : Bool := decide (self.x < other.x)

/-- One sift-up step sequence of `BinaryHeap::push` on the underlying vector:
the element at `pos` swaps with its parent while it is strictly greater in
the heap order.  The recursion is driven structurally by a fuel argument;
the parent index `(pos - 1) / 2` is strictly smaller than `pos`, so a fuel of
`pos` always suffices. -/
def heap_sift_up_go (fuel : Nat) (data : List Sprite) (pos : Nat) : List Sprite :=
  match fuel with
  | 0 => data
  | fuel + 1 =>
    if pos = 0 then data
    else
      let parent := (pos - 1) / 2
      match data.get? pos, data.get? parent with
      | some e, some p =>
        if Sprite.heap_gt e p then
          heap_sift_up_go fuel ((data.set pos p).set parent e) parent
        else data
      | _, _ => data

def heap_sift_up (data : List Sprite) (pos : Nat) : List Sprite :=
  heap_sift_up_go pos data pos

/-- `BinaryHeap::push`: append at the end of the vector and sift up. -/
def heap_push (data : List Sprite) (s : Sprite) : List Sprite :=
  heap_sift_up (data ++ [s]) data.length

/-- Object attribute memory: the `[Sprite; 40]` array as a function. -/
structure ObjectAttributeMemory where
  sprites : Nat → Sprite

def ObjectAttributeMemory.initial : ObjectAttributeMemory :=
  ⟨fun _ => Sprite.initial⟩

def ObjectAttributeMemory.read (o : ObjectAttributeMemory) (offset : Nat) :
    Option Nat :=
  (o.sprites (offset / 4)).read (offset % 4)

def ObjectAttributeMemory.write (o : ObjectAttributeMemory) (offset byte : Nat) :
    Option ObjectAttributeMemory := do
  let s ← (o.sprites (offset / 4)).write (offset % 4) byte
  some ⟨fun i => if i = offset / 4 then s else o.sprites i⟩

/-- PPU state.  The two 160-by-144 framebuffers are functions from
`(row, column)`; the `BinaryHeap<Sprite>` sprite cache is its underlying
vector (a list), kept exactly as the sequence of `push` operations builds
it. -/
structure PictureProcessingUnit where
  in_use_by_lcd : Bool
  video_ram : VideoRam
  object_attribute_memory : ObjectAttributeMemory
  framebuffer1 : Nat → Nat → Color
  framebuffer2 : Nat → Nat → Color
  framebuffer_selector : Bool
  sprites_this_line : List Sprite

def PictureProcessingUnit.initial : PictureProcessingUnit :=
  { in_use_by_lcd := false
    video_ram := VideoRam.initial
    object_attribute_memory := ObjectAttributeMemory.initial
    framebuffer1 := fun _ _ => Color.white
    framebuffer2 := fun _ _ => Color.white
    framebuffer_selector := false
    sprites_this_line := [] }

namespace PictureProcessingUnit

def read_video_ram (p : PictureProcessingUnit) (offset : Nat) : Option Nat :=
  if p.in_use_by_lcd then some 0xff else p.video_ram.read offset

def write_video_ram (p : PictureProcessingUnit) (offset byte : Nat) :
    Option PictureProcessingUnit :=
  if !p.in_use_by_lcd then do
    let v ← p.video_ram.write offset byte
    some { p with video_ram := v }
  else
    some p

def read_object_attribute_memory (p : PictureProcessingUnit) (offset : Nat) :
    Option Nat :=
  if p.in_use_by_lcd then some 0xff else p.object_attribute_memory.read offset

def write_object_attribute_memory (p : PictureProcessingUnit) (offset byte : Nat) :
    Option PictureProcessingUnit :=
  if !p.in_use_by_lcd then do
    let o ← p.object_attribute_memory.write offset byte
    some { p with object_attribute_memory := o }
  else
    some p

def get_color_at_pixel_using_tilemap (p : PictureProcessingUnit) (x y : Nat)
    (selected_map : TileMap) (addressing_mode : TileAddressingMethod) : ColorIndex :=
  let tilemap :=
    match selected_map with
    | .from9800 => p.video_ram.background_map_0
    | .from9C00 => p.video_ram.background_map_1
  let map_x := x / 8
  let map_y := y / 8
  let tile_index := tilemap (32 * map_y + map_x)
  let addressing_mode := addressing_mode.set_offset tile_index
  let tile := p.video_ram.read_tile addressing_mode
  tile.get_color (x % 8) (y % 8)

def get_color_at_pixel_for_sprite (p : PictureProcessingUnit) (x y tile_index : Nat)
    (flip_x flip_y : Bool) : ColorIndex :=
  let addressing_mode := TileAddressingMethod.from8000 tile_index
  let tile := p.video_ram.read_tile addressing_mode
  let tile_x := if flip_x then 7 - (x % 8) else x % 8
  let tile_y := if flip_y then 7 - (y % 8) else y % 8
  tile.get_color tile_x tile_y

/-- The OAM scan loop of `get_sprites_for_line`, iterating the 40 sprites in
OAM order and pushing matches on the heap until 10 are cached.  The loop over
`i < 40` is driven structurally by a fuel of `40 - i`. -/
def sprite_scan_loop (p : PictureProcessingUnit) (y : Nat) (sprite_size : SpriteSize)
    (fuel i : Nat) (acc : List Sprite) : List Sprite :=
  match fuel with
  | 0 => acc
  | fuel + 1 =>
    if i ≥ 40 then acc
    else
      let object := p.object_attribute_memory.sprites i
      let sprite_y : Int := (object.y : Int) - 16
      let y_i16 : Int := y
      let should_be_drawn :=
        match sprite_size with
        | .small => decide (sprite_y ≤ y_i16 ∧ y_i16 < sprite_y + 8)
        | .large => decide (sprite_y ≤ y_i16 ∧ y_i16 < sprite_y + 16)
      if should_be_drawn then
        let acc := heap_push acc object
        if acc.length ≥ 10 then acc
        else sprite_scan_loop p y sprite_size fuel (i + 1) acc
      else
        sprite_scan_loop p y sprite_size fuel (i + 1) acc

def get_sprites_for_line (p : PictureProcessingUnit) (y : Nat)
    (sprite_size : SpriteSize) : PictureProcessingUnit :=
  { p with sprites_this_line := sprite_scan_loop p y sprite_size 40 0 [] }

def get_current_framebuffer (p : PictureProcessingUnit) : Nat → Nat → Color :=
  if p.framebuffer_selector then p.framebuffer2 else p.framebuffer1

def write_to_framebuffer (p : PictureProcessingUnit) (x y : Nat) (color : Color) :
    PictureProcessingUnit :=
  if p.framebuffer_selector then
    { p with framebuffer2 := fun r c =>
        if r = y && c = x then color else p.framebuffer2 r c }
  else
    { p with framebuffer1 := fun r c =>
        if r = y && c = x then color else p.framebuffer1 r c }

/-- The sprite loop of `tick`: iterate the cached list in its stored (heap
vector) order and draw the first sprite whose span covers the pixel, whose
color index is non-zero, and which is not suppressed by the
behind-background rule. -/
def sprite_draw_loop (p : PictureProcessingUnit) (lcd : Lcd) (x_i16 : Int)
    (y x : Nat) (bg_color_index_was_zero : Bool) :
    List Sprite → PictureProcessingUnit
  | [] => p
  | object :: rest =>
    let sprite_size := lcd.get_sprite_size
    let sprite_y : Int := (object.y : Int) - 16
    let sprite_x : Int := (object.x : Int) - 8
    let y_i16 : Int := y
    let should_be_drawn :=
      match sprite_size with
      | .small => decide (sprite_x ≤ x_i16 ∧ x_i16 < sprite_x + 8)
      | .large => decide (sprite_x ≤ x_i16 ∧ x_i16 < sprite_x + 8)
    let should_be_drawn :=
      should_be_drawn && (!object.attributes.behind_background || bg_color_index_was_zero)
    if should_be_drawn then
      let color_index :=
        match sprite_size with
        | .small =>
          let tile_x := wrap8 (x_i16 - sprite_x).toNat
          let tile_y := wrap8 (y_i16 - sprite_y).toNat
          p.get_color_at_pixel_for_sprite tile_x tile_y object.tile_number
            object.attributes.flip_x object.attributes.flip_y
        | .large =>
          let tile_x := wrap8 (x_i16 - sprite_x).toNat
          let tile_y := wrap8 (y_i16 - sprite_y).toNat
          let temp_tile_index :=
            if tile_y > 7 then object.tile_number ||| 0x1
            else object.tile_number &&& 0xfe
          let tile_index :=
            if object.attributes.flip_y then temp_tile_index ^^^ 0x1
            else temp_tile_index
          p.get_color_at_pixel_for_sprite tile_x tile_y tile_index
            object.attributes.flip_x object.attributes.flip_y
      if !(color_index == ColorIndex.color0) then
        let palettes := lcd.get_object_palettes
        let palette :=
          match object.attributes.gb_palette_number with
          | .palette0 => palettes.1
          | .palette1 => palettes.2
        let color := palette.get_color color_index
        p.write_to_framebuffer x y color
      else
        sprite_draw_loop p lcd x_i16 y x bg_color_index_was_zero rest
    else
      sprite_draw_loop p lcd x_i16 y x bg_color_index_was_zero rest

/-- One dot of the `tick` loop body: composite the pixel at the current
`(lx, ly)` when visible, then advance the LCD dot clock. -/
def tick_one (p : PictureProcessingUnit) (lcd : Lcd) :
    PictureProcessingUnit × Lcd × Bool × Bool :=
  let x_i16 := lcd.get_lx
  let y := lcd.get_ly
  let p := if x_i16 == -80 then p.get_sprites_for_line y lcd.get_sprite_size else p
  let p :=
    if decide (0 ≤ x_i16 ∧ x_i16 < 160) && decide (y < 144) then
      let x := x_i16.toNat % 256
      let addressing_mode := lcd.get_addressing_mode
      let bg_window_priority := lcd.get_background_window_priority
      let offsets := lcd.get_scroll_offsets
      let bg_x := wrap8 (offsets.1 + x)
      let bg_y := wrap8 (offsets.2 + y)
      let bg_tile_map := lcd.get_background_tile_map
      let palette := lcd.get_background_palette
      let res :=
        if bg_window_priority then
          let bg_color := p.get_color_at_pixel_using_tilemap bg_x bg_y bg_tile_map
            addressing_mode
          let bg_color_index_was_zero := bg_color == ColorIndex.color0
          let color := palette.get_color bg_color
          (p.write_to_framebuffer x y color, bg_color_index_was_zero)
        else
          (p.write_to_framebuffer x y Color.white, true)
      let p := res.1
      let bg_color_index_was_zero := res.2
      let window_coords := lcd.get_window_coords
      let window_x := window_coords.1 - 7
      let window_y := window_coords.2
      let window_tile_map := lcd.get_window_tile_map
      let window_enable := lcd.get_window_enable
      let res :=
        if bg_window_priority && window_enable && decide (x ≥ window_x) &&
            decide (y ≥ window_y) then
          let win_pos_x := x - window_x
          let win_pos_y := y - window_y
          let bg_color := p.get_color_at_pixel_using_tilemap win_pos_x win_pos_y
            window_tile_map addressing_mode
          let color := palette.get_color bg_color
          (p.write_to_framebuffer x y color, bg_color == ColorIndex.color0)
        else
          (p, bg_color_index_was_zero)
      let p := res.1
      let bg_color_index_was_zero := res.2
      let objects_enable := lcd.get_sprite_enable
      if objects_enable then
        p.sprite_draw_loop lcd x_i16 y x bg_color_index_was_zero p.sprites_this_line
      else
        p
    else
      p
  let ticked := lcd.tick
  let lcd := ticked.1
  let vblank := ticked.2.1
  let stat := ticked.2.2
  let p := if vblank then { p with framebuffer_selector := !p.framebuffer_selector } else p
  (p, lcd, vblank, stat)

/-- Embedding of `PictureProcessingUnit::tick`: when the LCD is enabled, run
`cycles` dots accumulating the interrupt flags; otherwise do nothing. -/
def tick_loop (p : PictureProcessingUnit) (lcd : Lcd) (vblank stat : Bool) :
    Nat → PictureProcessingUnit × Lcd × Bool × Bool
  | 0 => (p, lcd, vblank, stat)
  | n + 1 =>
    let r := p.tick_one lcd
    tick_loop r.1 r.2.1 (vblank || r.2.2.1) (stat || r.2.2.2) n

def tick (p : PictureProcessingUnit) (cycles : Nat) (lcd : Lcd) :
    PictureProcessingUnit × Lcd × Bool × Bool :=
  if lcd.get_lcd_enable then
    tick_loop p lcd false false cycles
  else
    (p, lcd, false, false)

end PictureProcessingUnit

/-! Memory bus, from src/gbc/memory_bus.rs.  The fields `vram_select`,
`disable_boot_rom`, `vram_dma`, `color_palettes` and `wram_bank_select` exist
in the source struct but are never read or written by any bus operation, so
they are omitted.  Work RAM, high RAM and the boot ROM are byte functions. -/

inductive MemoryRegion where
  | cartridge_bank0 (addr : Nat)
  | cartridge_bank_selectable (off : Nat)
  | video_ram (off : Nat)
  | external_ram (off : Nat)
  | work_ram (off : Nat)
  | object_attribute_memory (off : Nat)
  | unused
  | joypad
  | serial (off : Nat)
  | timer (off : Nat)
  | interrupt_flags
  | sound (off : Nat)
  | waveform_ram (off : Nat)
  | lcd (off : Nat)
  | key1_flag
  | boot_rom_disable
  | high_ram (off : Nat)
  | interrupt_enable
deriving Repr, DecidableEq

/-- Embedding of `impl From<u16> for MemoryRegion`. -/
def MemoryRegion.from_address (address : Nat) : MemoryRegion :=
  if address ≤ 0x3fff then .cartridge_bank0 address
  else if address ≤ 0x7fff then .cartridge_bank_selectable (address - 0x4000)
  else if address ≤ 0x9fff then .video_ram (address - 0x8000)
  else if address ≤ 0xbfff then .external_ram (address - 0xa000)
  else if address ≤ 0xdfff then .work_ram (address - 0xc000)
  else if address ≤ 0xfdff then .work_ram (address - 0xe000)
  else if address ≤ 0xfe9f then .object_attribute_memory (address - 0xfe00)
  else if address ≤ 0xfeff then .unused
  else if address = 0xff00 then .joypad
  else if 0xff01 ≤ address ∧ address ≤ 0xff02 then .serial (address - 0xff01)
  else if 0xff04 ≤ address ∧ address ≤ 0xff07 then .timer (address - 0xff04)
  else if address = 0xff0f then .interrupt_flags
  else if 0xff10 ≤ address ∧ address ≤ 0xff26 then .sound (address - 0xff10)
  else if 0xff30 ≤ address ∧ address ≤ 0xff3f then .waveform_ram (address - 0xff30)
  else if 0xff40 ≤ address ∧ address ≤ 0xff4b then .lcd (address - 0xff40)
  else if address = 0xff4d then .key1_flag
  else if address = 0xff50 then .boot_rom_disable
  else if 0xff80 ≤ address ∧ address ≤ 0xfffe then .high_ram (address - 0xff80)
  else if address = 0xffff then .interrupt_enable
  else .unused

def MemoryRegion.is_high_ram (r : MemoryRegion) : Bool :=
  match r with
  | .high_ram _ => true
  | _ => false

structure MemoryBus where
  cartridge : Cartridge
  ram : Nat → Nat
  ppu : PictureProcessingUnit
  joypad : Joypad
  serial : Comms
  timer_control : Timer
  sound : Sound
  lcd : Lcd
  boot_rom_disable : Nat
  interrupt_flags : Nat
  high_ram : Nat → Nat
  interrupt_enable : Nat
  boot_rom : Nat → Nat
  last_bus_value : Nat
  memory_breakpoints : List Breakpoint
  break_reason : Option Breakpoint

namespace MemoryBus

/-- Embedding of `MemoryBus::check_breakpoints`.  The predicate transcribes
the source condition verbatim, including its `&&`-over-`||` precedence. -/
def check_breakpoints (bus : MemoryBus) (address : Nat) (write : Bool) :
    Option Breakpoint :=
  bus.memory_breakpoints.find? fun bp =>
    (bp.matches_address address && (write && bp.access_type.on_write)) ||
      (!write && bp.access_type.on_read)

/-- Embedding of `MemoryBus::read_u8`.  During OAM DMA every non-HRAM read
returns the latched last bus value without touching any state (the source
returns before the breakpoint check). -/
def read_u8 (bus : MemoryBus) (address : Nat) : Option (MemoryBus × Nat) :=
  let region := MemoryRegion.from_address address
  if bus.lcd.get_dma_running && !region.is_high_ram then
    some (bus, bus.last_bus_value)
  else
    let bus := { bus with
      break_reason := bus.break_reason.or (bus.check_breakpoints address false) }
    do
    let v ←
      match region with
      | .cartridge_bank0 offset =>
        if bus.boot_rom_disable == 0 && offset < 0x100 then
          some (bus.boot_rom offset)
        else
          some (bus.cartridge.read_rom_bank_0 offset)
      | .cartridge_bank_selectable offset =>
        some (bus.cartridge.read_rom_selected_bank offset)
      | .video_ram offset => bus.ppu.read_video_ram offset
      | .external_ram offset => some (bus.cartridge.read_from_external_ram offset)
      | .work_ram offset => some (bus.ram offset)
      | .object_attribute_memory offset => bus.ppu.read_object_attribute_memory offset
      | .unused =>
        let second_nibble := (address >>> 4) &&& 0xf
        some ((second_nibble <<< 4) ||| second_nibble)
      | .joypad => bus.joypad.read_u8
      | .serial offset => bus.serial.read_u8 offset
      | .timer offset => bus.timer_control.read_u8 offset
      | .interrupt_flags => some bus.interrupt_flags
      | .sound offset => bus.sound.read_u8 offset
      | .waveform_ram offset => bus.sound.read_u8_from_waveform offset
      | .lcd offset => bus.lcd.read_u8 offset
      | .boot_rom_disable => some bus.boot_rom_disable
      | .key1_flag => some 0xff
      | .high_ram offset => some (bus.high_ram offset)
      | .interrupt_enable => some bus.interrupt_enable
    some ({ bus with last_bus_value := v }, v)

def read_u16 (bus : MemoryBus) (address : Nat) : Option (MemoryBus × Nat) := do
  let r1 ← bus.read_u8 address
  let r2 ← r1.1.read_u8 (wrap16 (address + 1))
  some (r2.1, (r2.2 <<< 8) ||| r1.2)

/-- Embedding of `MemoryBus::read_mem` (the source iterates
`address..address + length`; callers stay inside the 16-bit space). -/
def read_mem (bus : MemoryBus) (address length : Nat) :
    Option (MemoryBus × List Nat) :=
  match length with
  | 0 => some (bus, [])
  | n + 1 => do
    let r ← bus.read_u8 address
    let rest ← r.1.read_mem (address + 1) n
    some (rest.1, r.2 :: rest.2)

/-- Embedding of `MemoryBus::write_u8`.  During OAM DMA every non-HRAM write
is dropped (the source returns before the breakpoint check and before the
last-bus-value update). -/
def write_u8 (bus : MemoryBus) (address byte : Nat) : Option MemoryBus :=
  let region := MemoryRegion.from_address address
  if bus.lcd.get_dma_running && !region.is_high_ram then
    some bus
  else
    let bus := { bus with
      break_reason := bus.break_reason.or (bus.check_breakpoints address true) }
    do
    let bus ←
      match region with
      | .cartridge_bank0 offset => do
        let c ← bus.cartridge.write_rom_bank_0 offset byte
        some { bus with cartridge := c }
      | .cartridge_bank_selectable offset => do
        let c ← bus.cartridge.write_rom_selected_bank offset byte
        some { bus with cartridge := c }
      | .video_ram offset => do
        let p ← bus.ppu.write_video_ram offset byte
        some { bus with ppu := p }
      | .external_ram offset =>
        some { bus with cartridge := bus.cartridge.write_to_external_ram offset byte }
      | .work_ram offset =>
        some { bus with ram := fun i => if i = offset then byte else bus.ram i }
      | .object_attribute_memory offset => do
        let p ← bus.ppu.write_object_attribute_memory offset byte
        some { bus with ppu := p }
      | .unused => some bus
      | .joypad => some { bus with joypad := bus.joypad.write_u8 byte }
      | .serial offset => do
        let s ← bus.serial.write_u8 offset byte
        some { bus with serial := s }
      | .timer offset => do
        let t ← bus.timer_control.write_u8 offset byte
        some { bus with timer_control := t }
      | .interrupt_flags => some { bus with interrupt_flags := byte }
      | .sound offset => do
        let s ← bus.sound.write_u8 offset byte
        some { bus with sound := s }
      | .waveform_ram offset => do
        let s ← bus.sound.write_u8_from_waveform offset byte
        some { bus with sound := s }
      | .lcd offset => do
        let l ← bus.lcd.write_u8 offset byte
        some { bus with lcd := l }
      | .boot_rom_disable => some { bus with boot_rom_disable := byte }
      | .key1_flag => some bus
      | .high_ram offset =>
        some { bus with high_ram := fun i => if i = offset then byte else bus.high_ram i }
      | .interrupt_enable => some { bus with interrupt_enable := byte }
    some { bus with last_bus_value := byte }

/-- Embedding of `MemoryBus::write_mem` (addresses advance with
`wrapping_add`). -/
def write_mem (bus : MemoryBus) (address : Nat) (bytes : List Nat) :
    Option MemoryBus :=
  write_mem_loop bus address 0 bytes
where
  write_mem_loop (bus : MemoryBus) (address i : Nat) :
      List Nat → Option MemoryBus
    | [] => some bus
    | byte :: rest => do
      let bus ← bus.write_u8 (wrap16 (address + i)) byte
      write_mem_loop bus address (i + 1) rest

def write_u16 (bus : MemoryBus) (address v : Nat) : Option MemoryBus :=
  bus.write_mem address [v % 256, v / 256 % 256]

/-- The body of the `run_dma` cycle loop. -/
def run_dma_loop (bus : MemoryBus) : Nat → Option MemoryBus
  | 0 => some bus
  | n + 1 =>
    match bus.lcd.get_dma_addresses with
    | none => some bus
    | some (source, destination) => do
      let r ← bus.read_u8 source
      let bus := { r.1 with last_bus_value := r.2 }
      let bus ← bus.write_u8 destination r.2
      run_dma_loop { bus with lcd := bus.lcd.tick_dma } n

/-- Embedding of `MemoryBus::run_dma`. -/
def run_dma (bus : MemoryBus) (cycles : Nat) : Option MemoryBus :=
  if !bus.lcd.get_dma_running then some bus
  else run_dma_loop bus cycles

end MemoryBus

/-! CPU execution, from src/gbc/cpu/mod.rs.  `Option` threads the panics
(`unreachable!`, `panic!`, failed asserts); the inner `Option Nat` of the step
result mirrors the source return value `Option<u64>` where `None` marks a
fatal unknown opcode.  Rust 16-bit arithmetic on PC, SP and HL wraps
(release-build semantics, and the spec requires 16-bit wrap-around). -/

/-- Reinterpret an i8 value as a u16, as the source does with `to_le_bytes`
plus a 0xFF or 0x00 high byte. -/
def i8_as_u16 (d : Int) : Nat :=
  if d < 0 then 0xff00 ||| (d + 256).toNat else d.toNat

/-- Truncating i32-to-u16 cast (two's complement). -/
def int_as_u16 (v : Int) : Nat := (v % 65536).toNat

namespace Cpu

def get_r8 (cpu : Cpu) (register : Register) : Option Nat :=
  match register with
  | .a => some cpu.af.get_high
  | .b => some cpu.bc.get_high
  | .c => some cpu.bc.get_low
  | .d => some cpu.de.get_high
  | .e => some cpu.de.get_low
  | .h => some cpu.hl.get_high
  | .l => some cpu.hl.get_low
  | _ => none

def set_r8 (cpu : Cpu) (register : Register) (v : Nat) : Option Cpu :=
  match register with
  | .a => some { cpu with af := cpu.af.set_high v }
  | .b => some { cpu with bc := cpu.bc.set_high v }
  | .c => some { cpu with bc := cpu.bc.set_low v }
  | .d => some { cpu with de := cpu.de.set_high v }
  | .e => some { cpu with de := cpu.de.set_low v }
  | .h => some { cpu with hl := cpu.hl.set_high v }
  | .l => some { cpu with hl := cpu.hl.set_low v }
  | _ => none

def get_r16 (cpu : Cpu) (register : Register) : Option Nat :=
  match register with
  | .bc => some cpu.bc.get_u16
  | .de => some cpu.de.get_u16
  | .hl => some cpu.hl.get_u16
  | .sp => some cpu.sp
  | _ => none

def set_r16 (cpu : Cpu) (register : Register) (v : Nat) : Option Cpu :=
  match register with
  | .bc => some { cpu with bc := cpu.bc.set_u16 v }
  | .de => some { cpu with de := cpu.de.set_u16 v }
  | .hl => some { cpu with hl := cpu.hl.set_u16 v }
  | .sp => some { cpu with sp := wrap16 v }
  | _ => none

def check_condition (cpu : Cpu) (condition : ConditionType) : Bool :=
  match condition with
  | .non_zero => !cpu.get_zero_flag
  | .zero => cpu.get_zero_flag
  | .not_carry => !cpu.get_carry_flag
  | .carry => cpu.get_carry_flag

/-- Embedding of `Cpu::push`: decrement SP by two (wrapping) and store the
value little-endian. -/
def push (cpu : Cpu) (bus : MemoryBus) (v : Nat) : Option (Cpu × MemoryBus) := do
  let cpu := { cpu with sp := wrap16 (cpu.sp + 65536 - 2) }
  let bus ← bus.write_mem cpu.sp [v % 256, v / 256 % 256]
  some (cpu, bus)

/-- Embedding of `Cpu::pop`: read two bytes little-endian and increment SP by
two (wrapping). -/
def pop (cpu : Cpu) (bus : MemoryBus) : Option (Cpu × MemoryBus × Nat) := do
  let r ← bus.read_mem cpu.sp 2
  let cpu := { cpu with sp := wrap16 (cpu.sp + 2) }
  match r.2 with
  | [b0, b1] => some (cpu, r.1, (b1 <<< 8) ||| b0)
  | _ => none

def call (cpu : Cpu) (bus : MemoryBus) (address : Nat) : Option (Cpu × MemoryBus) := do
  let r ← cpu.push bus cpu.pc
  some ({ r.1 with pc := address }, r.2)

def ret (cpu : Cpu) (bus : MemoryBus) : Option (Cpu × MemoryBus) := do
  let r ← cpu.pop bus
  some ({ r.1 with pc := r.2.2 }, r.2.1)

/-- Embedding of `Cpu::test_bit` (asserts `bit < 8`). -/
def test_bit (bit v : Nat) : Option Bool :=
  if bit < 8 then some ((v &&& (1 <<< bit)) ≠ 0) else none

/-- Embedding of `Cpu::set_bit` (asserts `bit < 8`). -/
def set_bit (bit v : Nat) : Option Nat :=
  if bit < 8 then some (v ||| (1 <<< bit)) else none

/-- Embedding of `Cpu::reset_bit` (asserts `bit < 8`; `!(1 << bit)` on `u8`
is `255 - (1 << bit)`). -/
def reset_bit (bit v : Nat) : Option Nat :=
  if bit < 8 then some (v &&& (255 - (1 <<< bit))) else none

/-- Embedding of `Cpu::extract_u8_arithmetic_operand`; returns the possibly
advanced bus together with the operand value and the cycle count. -/
def extract_u8_arithmetic_operand (cpu : Cpu) (bus : MemoryBus)
    (operand : Operand) : Option (MemoryBus × Nat × Nat) :=
  match operand with
  | .u8 v => some (bus, v, 8)
  | .register r => do
    let v ← cpu.get_r8 r
    some (bus, v, 4)
  | .deref (.register .hl) => do
    let r ← bus.read_u8 cpu.hl.get_u16
    some (r.1, r.2, 8)
  | _ => none

/-- Shared shape of the eight CB-prefixed rotate and shift arms of
`execute_instruction`: read the 8-bit operand (register, 8 cycles, or byte at
HL, 16 cycles), transform it with the old carry, write it back, then clear
the flags and set carry from the shifted-out bit and zero from the result,
exactly as each source arm does.  `swap` passes a transform whose carry is
constantly false, which matches its source arm (the flags are cleared and
only zero is set). -/
def rotate_shift_op (cpu : Cpu) (bus : MemoryBus) (operand : Operand)
    (f : Nat → Nat → Nat × Bool) : Option (Cpu × MemoryBus × Option Nat) :=
  let old_carry := if cpu.get_carry_flag then 1 else 0
  match operand with
  | .register r => do
    let v ← cpu.get_r8 r
    let res := f v old_carry
    let cpu ← cpu.set_r8 r res.1
    let cpu := cpu.clear_flags
    let cpu := cpu.set_carry_flag_from_bool res.2
    let cpu := cpu.set_zero_flag_from_bool (res.1 == 0)
    some (cpu, bus, some 8)
  | .deref (.register .hl) => do
    let r ← bus.read_u8 cpu.hl.get_u16
    let res := f r.2 old_carry
    let bus ← r.1.write_u8 cpu.hl.get_u16 res.1
    let cpu := cpu.clear_flags
    let cpu := cpu.set_carry_flag_from_bool res.2
    let cpu := cpu.set_zero_flag_from_bool (res.1 == 0)
    some (cpu, bus, some 16)
  | _ => none

/-- Embedding of `Cpu::execute_instruction`.  The result is
`(cpu, bus, Option cycles)`; outer `none` is a Rust panic, inner `none` is
the fatal unknown-opcode result. -/
def execute_instruction (cpu : Cpu) (bus : MemoryBus) (insn : Instruction) :
    Option (Cpu × MemoryBus × Option Nat) :=
  let cpu := { cpu with pc := wrap16 (cpu.pc + insn.size) }
  match insn.op with
  | .unknown _ => some (cpu, bus, none)
  | .nop => some (cpu, bus, some 4)
  | .stop => some ({ cpu with state := .stopped }, bus, some 4)
  | .halt => some ({ cpu with state := .halted }, bus, some 4)
  | .ld8 destination source =>
    match destination with
    | .register r_dest =>
      match source with
      | .register r_src => do
        let v ← cpu.get_r8 r_src
        let cpu ← cpu.set_r8 r_dest v
        some (cpu, bus, some 4)
      | .u8 v => do
        let cpu ← cpu.set_r8 r_dest v
        some (cpu, bus, some 8)
      | .deref d =>
        match d with
        | .register .hl => do
          let r ← bus.read_u8 cpu.hl.get_u16
          let cpu ← cpu.set_r8 r_dest r.2
          some (cpu, r.1, some 8)
        | .register r_src =>
          if r_src = .bc ∨ r_src = .de then
            if r_dest ≠ .a then none
            else do
              let addr ← cpu.get_r16 r_src
              let r ← bus.read_u8 addr
              some (cpu.set_a r.2, r.1, some 8)
          else if r_src = .hl_plus then
            if r_dest ≠ .a then none
            else do
              let r ← bus.read_u8 cpu.hl.get_u16
              let cpu := { cpu with hl := cpu.hl.set_u16 (wrap16 (cpu.hl.get_u16 + 1)) }
              some (cpu.set_a r.2, r.1, some 8)
          else if r_src = .hl_minus then
            if r_dest ≠ .a then none
            else do
              let r ← bus.read_u8 cpu.hl.get_u16
              let cpu := { cpu with hl := cpu.hl.set_u16 (wrap16 (cpu.hl.get_u16 + 65535)) }
              some (cpu.set_a r.2, r.1, some 8)
          else none
        | .address addr =>
          if r_dest ≠ .a then none
          else do
            let r ← bus.read_u8 addr
            some (cpu.set_a r.2, r.1, some 16)
        | .ff00_offset offset =>
          if r_dest ≠ .a then none
          else do
            let r ← bus.read_u8 (wrap16 (0xff00 + offset))
            some (cpu.set_a r.2, r.1, some 12)
        | .ff00_plus_c =>
          if r_dest ≠ .a then none
          else do
            let r ← bus.read_u8 (wrap16 (0xff00 + cpu.bc.get_low))
            some (cpu.set_a r.2, r.1, some 8)
      | _ => none
    | .deref d =>
      match d with
      | .register .hl => do
        let vc : Nat × Nat ←
          match source with
          | .register r => do
            let v ← cpu.get_r8 r
            some (v, 8)
          | .u8 v => some (v, 12)
          | _ => none
        let bus ← bus.write_u8 cpu.hl.get_u16 vc.1
        some (cpu, bus, some vc.2)
      | .register r =>
        if r = .bc ∨ r = .de then
          if source ≠ .register .a then none
          else do
            let addr ← cpu.get_r16 r
            let bus ← bus.write_u8 addr cpu.get_a
            some (cpu, bus, some 8)
        else if r = .hl_plus then
          if source ≠ .register .a then none
          else do
            let bus ← bus.write_u8 cpu.hl.get_u16 cpu.get_a
            let cpu := { cpu with hl := cpu.hl.set_u16 (wrap16 (cpu.hl.get_u16 + 1)) }
            some (cpu, bus, some 8)
        else if r = .hl_minus then
          if source ≠ .register .a then none
          else do
            let bus ← bus.write_u8 cpu.hl.get_u16 cpu.get_a
            let cpu := { cpu with hl := cpu.hl.set_u16 (wrap16 (cpu.hl.get_u16 + 65535)) }
            some (cpu, bus, some 8)
        else none
      | .address addr =>
        if source ≠ .register .a then none
        else do
          let bus ← bus.write_u8 addr cpu.get_a
          some (cpu, bus, some 16)
      | .ff00_offset offset =>
        if source ≠ .register .a then none
        else do
          let bus ← bus.write_u8 (wrap16 (0xff00 + offset)) cpu.get_a
          some (cpu, bus, some 8)
      | .ff00_plus_c =>
        if source ≠ .register .a then none
        else do
          let bus ← bus.write_u8 (wrap16 (0xff00 + cpu.bc.get_low)) cpu.get_a
          some (cpu, bus, some 8)
    | _ => none
  | .ld16 destination source =>
    match destination with
    | .register r =>
      if r = .bc ∨ r = .de ∨ r = .hl ∨ r = .sp then
        match source with
        | .u16 v => do
          let cpu ← cpu.set_r16 r v
          some (cpu, bus, some 12)
        | .register .hl =>
          if r ≠ .sp then none
          else do
            let cpu ← cpu.set_r16 r cpu.hl.get_u16
            some (cpu, bus, some 8)
        | .stack_offset d =>
          if r ≠ .hl then none
          else
            let d_u16 := i8_as_u16 d
            let sum := wrap16 (cpu.sp + d_u16)
            let cpu := cpu.clear_zero_flag
            let cpu := cpu.clear_subtraction_flag
            let cpu := cpu.set_carry_flag_from_bool
              (decide ((cpu.sp &&& 0xff) + (d_u16 &&& 0xff) > 0xff))
            let cpu := cpu.set_half_carry_flag_from_bool
              (decide ((cpu.sp &&& 0xf) + (d_u16 &&& 0xf) > 0xf))
            do
            let cpu ← cpu.set_r16 r sum
            some (cpu, bus, some 12)
        | _ => none
      else none
    | .deref (.address addr) =>
      match source with
      | .register .sp => do
        let bus ← bus.write_u16 addr cpu.sp
        some (cpu, bus, some 20)
      | _ => none
    | _ => none
  | .jp destination =>
    match destination with
    | .u16 address => some ({ cpu with pc := address }, bus, some 16)
    | .register .hl => some ({ cpu with pc := cpu.hl.get_u16 }, bus, some 4)
    | _ => none
  | .jp_cond condition destination =>
    if cpu.check_condition condition then
      some ({ cpu with pc := destination }, bus, some 16)
    else
      some (cpu, bus, some 12)
  | .jr offset =>
    some ({ cpu with pc := int_as_u16 ((cpu.pc : Int) + offset) }, bus, some 12)
  | .jr_cond condition offset =>
    if cpu.check_condition condition then
      some ({ cpu with pc := int_as_u16 ((cpu.pc : Int) + offset) }, bus, some 12)
    else
      some (cpu, bus, some 8)
  | .call destination => do
    let r ← cpu.call bus destination
    some (r.1, r.2, some 24)
  | .call_cond condition destination =>
    if cpu.check_condition condition then do
      let r ← cpu.call bus destination
      some (r.1, r.2, some 24)
    else
      some (cpu, bus, some 16)
  | .ret => do
    let r ← Cpu.ret cpu bus
    some (r.1, r.2, some 16)
  | .ret_cond condition =>
    if cpu.check_condition condition then do
      let r ← Cpu.ret cpu bus
      some (r.1, r.2, some 20)
    else
      some (cpu, bus, some 8)
  | .reti => do
    let r ← Cpu.ret cpu bus
    some ({ r.1 with interrupts_enabled := true }, r.2, some 16)
  | .pop register => do
    let cpu ←
      match register with
      | .bc => do
        let r ← cpu.pop bus
        some ({ r.1 with bc := r.1.bc.set_u16 r.2.2 }, r.2.1)
      | .de => do
        let r ← cpu.pop bus
        some ({ r.1 with de := r.1.de.set_u16 r.2.2 }, r.2.1)
      | .hl => do
        let r ← cpu.pop bus
        some ({ r.1 with hl := r.1.hl.set_u16 r.2.2 }, r.2.1)
      | .af => do
        let r ← cpu.pop bus
        some ({ r.1 with af := ⟨r.2.2 &&& 0xfff0⟩ }, r.2.1)
      | _ => none
    some (cpu.1, cpu.2, some 12)
  | .push register => do
    let r ←
      match register with
      | .bc => cpu.push bus cpu.bc.get_u16
      | .de => cpu.push bus cpu.de.get_u16
      | .hl => cpu.push bus cpu.hl.get_u16
      | .af => cpu.push bus cpu.af.get_u16
      | _ => none
    some (r.1, r.2, some 16)
  | .rst vector => do
    let r ← cpu.call bus vector
    some (r.1, r.2, some 16)
  | .bit bit destination =>
    let cpu := cpu.clear_subtraction_flag
    let cpu := cpu.set_half_carry_flag
    match destination with
    | .register r => do
      let v ← cpu.get_r8 r
      let cpu := cpu.clear_subtraction_flag
      let cpu := cpu.set_half_carry_flag
      let t ← test_bit bit v
      let cpu := if t then cpu.clear_zero_flag else cpu.set_zero_flag
      some (cpu, bus, some 8)
    | .deref (.register .hl) => do
      let r ← bus.read_u8 cpu.hl.get_u16
      let cpu := cpu.clear_subtraction_flag
      let cpu := cpu.set_half_carry_flag
      let t ← test_bit bit r.2
      let cpu := if t then cpu.clear_zero_flag else cpu.set_zero_flag
      some (cpu, r.1, some 12)
    | _ => none
  | .res bit destination =>
    match destination with
    | .register r => do
      let v ← cpu.get_r8 r
      let v ← reset_bit bit v
      let cpu ← cpu.set_r8 r v
      some (cpu, bus, some 8)
    | .deref (.register .hl) => do
      let r ← bus.read_u8 cpu.hl.get_u16
      let v ← reset_bit bit r.2
      let bus ← r.1.write_u8 cpu.hl.get_u16 v
      some (cpu, bus, some 16)
    | _ => none
  | .set bit destination =>
    match destination with
    | .register r => do
      let v ← cpu.get_r8 r
      let v ← set_bit bit v
      let cpu ← cpu.set_r8 r v
      some (cpu, bus, some 8)
    | .deref (.register .hl) => do
      let r ← bus.read_u8 cpu.hl.get_u16
      let v ← set_bit bit r.2
      let bus ← r.1.write_u8 cpu.hl.get_u16 v
      some (cpu, bus, some 16)
    | _ => none
  | .add8 operand => do
    let r ← cpu.extract_u8_arithmetic_operand bus operand
    some (cpu.add8_with_carry r.2.1 false false, r.1, some r.2.2)
  | .add16 register operand =>
    match register with
    | .hl =>
      match operand with
      | .register r => do
        let v ←
          match r with
          | .bc => some cpu.bc.get_u16
          | .de => some cpu.de.get_u16
          | .hl => some cpu.hl.get_u16
          | .sp => some cpu.sp
          | _ => none
        let hl := cpu.hl.get_u16
        let sum := wrap16 (hl + v)
        let carry := decide (65536 ≤ hl + v)
        let cpu := cpu.clear_subtraction_flag
        let cpu := cpu.set_carry_flag_from_bool carry
        let cpu := cpu.set_half_carry_flag_from_bool
          (decide ((hl &&& 0xfff) + (v &&& 0xfff) > 0xfff))
        some ({ cpu with hl := cpu.hl.set_u16 sum }, bus, some 8)
      | _ => none
    | .sp =>
      match operand with
      | .i8 d =>
        let d_u16 := i8_as_u16 d
        let sum := wrap16 (cpu.sp + d_u16)
        let cpu := cpu.clear_zero_flag
        let cpu := cpu.clear_subtraction_flag
        let cpu := cpu.set_carry_flag_from_bool
          (decide ((cpu.sp &&& 0xff) + (d_u16 &&& 0xff) > 0xff))
        let cpu := cpu.set_half_carry_flag_from_bool
          (decide ((cpu.sp &&& 0xf) + (d_u16 &&& 0xf) > 0xf))
        some ({ cpu with sp := sum }, bus, some 16)
      | _ => none
    | _ => none
  | .inc operand =>
    match operand with
    | .register r => do
      let v ← cpu.get_r8 r
      let res := wrap8 (v + 1)
      let cpu ← cpu.set_r8 r res
      let cpu := cpu.clear_subtraction_flag
      let cpu := cpu.set_zero_flag_from_bool (res == 0)
      let cpu := cpu.set_half_carry_flag_from_bool ((v &&& 0xf) == 0xf)
      some (cpu, bus, some 4)
    | .deref (.register .hl) => do
      let r ← bus.read_u8 cpu.hl.get_u16
      let v := r.2
      let res := wrap8 (v + 1)
      let bus ← r.1.write_u8 cpu.hl.get_u16 res
      let cpu := cpu.clear_subtraction_flag
      let cpu := cpu.set_zero_flag_from_bool (res == 0)
      let cpu := cpu.set_half_carry_flag_from_bool ((v &&& 0xf) == 0xf)
      some (cpu, bus, some 12)
    | _ => none
  | .inc16 register => do
    let cpu ←
      match register with
      | .bc => some { cpu with bc := cpu.bc.set_u16 (wrap16 (cpu.bc.get_u16 + 1)) }
      | .de => some { cpu with de := cpu.de.set_u16 (wrap16 (cpu.de.get_u16 + 1)) }
      | .hl => some { cpu with hl := cpu.hl.set_u16 (wrap16 (cpu.hl.get_u16 + 1)) }
      | .sp => some { cpu with sp := wrap16 (cpu.sp + 1) }
      | _ => none
    some (cpu, bus, some 8)
  | .dec operand =>
    match operand with
    | .register r => do
      let v ← cpu.get_r8 r
      let res := wrap8 (v + 0xff)
      let cpu ← cpu.set_r8 r res
      let cpu := cpu.set_zero_flag_from_bool (res == 0)
      let cpu := cpu.set_subtraction_flag
      let cpu := cpu.set_half_carry_flag_from_bool ((res &&& 0xf) == 0xf)
      some (cpu, bus, some 4)
    | .deref (.register .hl) => do
      let r ← bus.read_u8 cpu.hl.get_u16
      let v := r.2
      let res := wrap8 (v + 0xff)
      let bus ← r.1.write_u8 cpu.hl.get_u16 res
      let cpu := cpu.set_zero_flag_from_bool (res == 0)
      let cpu := cpu.set_subtraction_flag
      let cpu := cpu.set_half_carry_flag_from_bool ((res &&& 0xf) == 0xf)
      some (cpu, bus, some 12)
    | _ => none
  | .dec16 register => do
    let cpu ←
      match register with
      | .bc => some { cpu with bc := cpu.bc.set_u16 (wrap16 (cpu.bc.get_u16 + 65535)) }
      | .de => some { cpu with de := cpu.de.set_u16 (wrap16 (cpu.de.get_u16 + 65535)) }
      | .hl => some { cpu with hl := cpu.hl.set_u16 (wrap16 (cpu.hl.get_u16 + 65535)) }
      | .sp => some { cpu with sp := wrap16 (cpu.sp + 65535) }
      | _ => none
    some (cpu, bus, some 8)
  | .adc operand => do
    let r ← cpu.extract_u8_arithmetic_operand bus operand
    some (cpu.add8_with_carry r.2.1 true false, r.1, some r.2.2)
  | .sub operand => do
    let r ← cpu.extract_u8_arithmetic_operand bus operand
    some (cpu.add8_with_carry r.2.1 false true, r.1, some r.2.2)
  | .sbc operand => do
    let r ← cpu.extract_u8_arithmetic_operand bus operand
    some (cpu.add8_with_carry r.2.1 true true, r.1, some r.2.2)
  | .and operand => do
    let r ← cpu.extract_u8_arithmetic_operand bus operand
    let val := cpu.get_a &&& r.2.1
    let cpu := cpu.set_a val
    let cpu := cpu.set_zero_flag_from_bool (val == 0)
    let cpu := cpu.clear_subtraction_flag
    let cpu := cpu.set_half_carry_flag
    let cpu := cpu.clear_carry_flag
    some (cpu, r.1, some r.2.2)
  | .xor operand => do
    let r ← cpu.extract_u8_arithmetic_operand bus operand
    let val := cpu.get_a ^^^ r.2.1
    let cpu := cpu.set_a val
    let cpu := cpu.set_zero_flag_from_bool (val == 0)
    let cpu := cpu.clear_subtraction_flag
    let cpu := cpu.clear_carry_flag
    let cpu := cpu.clear_half_carry_flag
    some (cpu, r.1, some r.2.2)
  | .or operand => do
    let r ← cpu.extract_u8_arithmetic_operand bus operand
    let val := cpu.get_a ||| r.2.1
    let cpu := cpu.set_a val
    let cpu := cpu.set_zero_flag_from_bool (val == 0)
    let cpu := cpu.clear_subtraction_flag
    let cpu := cpu.clear_carry_flag
    let cpu := cpu.clear_half_carry_flag
    some (cpu, r.1, some r.2.2)
  | .cp operand => do
    let r ← cpu.extract_u8_arithmetic_operand bus operand
    let v := r.2.1
    let a := cpu.get_a
    let cpu := cpu.set_zero_flag_from_bool (a == v)
    let cpu := cpu.set_subtraction_flag
    let cpu := cpu.set_carry_flag_from_bool (decide (a < v))
    let cpu := cpu.set_half_carry_flag_from_bool (decide (a % 16 < v % 16))
    some (cpu, r.1, some r.2.2)
  | .cpl =>
    let cpu := cpu.set_a (255 - cpu.get_a % 256)
    let cpu := cpu.set_subtraction_flag
    let cpu := cpu.set_half_carry_flag
    some (cpu, bus, some 4)
  | .daa =>
    let a := cpu.get_a
    let r :=
      if cpu.get_subtraction_flag then
        let r1 :=
          if cpu.get_carry_flag then (wrap8 (a + 256 - 0x60), cpu.set_carry_flag)
          else (a, cpu)
        if r1.2.get_half_carry_flag then (wrap8 (r1.1 + 256 - 0x6), r1.2) else r1
      else
        let r1 :=
          if cpu.get_carry_flag || decide (a > 0x99) then
            (wrap8 (a + 0x60), cpu.set_carry_flag)
          else (a, cpu)
        if r1.2.get_half_carry_flag || decide ((r1.1 &&& 0xf) > 0x9) then
          (wrap8 (r1.1 + 0x6), r1.2)
        else r1
    let a := r.1
    let cpu := r.2
    let cpu := cpu.set_zero_flag_from_bool (a == 0)
    let cpu := cpu.clear_half_carry_flag
    some (cpu.set_a a, bus, some 4)
  | .rlca =>
    let a := cpu.get_a
    let high_bit := a >>> 7
    let carry := high_bit == 1
    let a := wrap8 (a <<< 1) ||| high_bit
    let cpu := cpu.set_a a
    let cpu := cpu.clear_flags
    let cpu := cpu.set_carry_flag_from_bool carry
    some (cpu, bus, some 4)
  | .rla =>
    let a := cpu.get_a
    let old_carry := if cpu.get_carry_flag then 1 else 0
    let high_bit := a >>> 7
    let carry := high_bit == 1
    let a := wrap8 (a <<< 1) ||| old_carry
    let cpu := cpu.set_a a
    let cpu := cpu.clear_flags
    let cpu := cpu.set_carry_flag_from_bool carry
    some (cpu, bus, some 4)
  | .rrca =>
    let a := cpu.get_a
    let low_bit := a &&& 1
    let carry := low_bit == 1
    let a := (a >>> 1) ||| (low_bit <<< 7)
    let cpu := cpu.set_a a
    let cpu := cpu.clear_flags
    let cpu := cpu.set_carry_flag_from_bool carry
    some (cpu, bus, some 4)
  | .rra =>
    let a := cpu.get_a
    let old_carry := if cpu.get_carry_flag then 1 else 0
    let low_bit := a &&& 1
    let carry := low_bit == 1
    let a := (a >>> 1) ||| (old_carry <<< 7)
    let cpu := cpu.set_a a
    let cpu := cpu.clear_flags
    let cpu := cpu.set_carry_flag_from_bool carry
    some (cpu, bus, some 4)
  | .rlc operand =>
    rotate_shift_op cpu bus operand fun v _old_carry =>
      let high_bit := v >>> 7
      (wrap8 (v <<< 1) ||| high_bit, high_bit == 1)
  | .rl operand =>
    rotate_shift_op cpu bus operand fun v old_carry =>
      let high_bit := v >>> 7
      (wrap8 (v <<< 1) ||| old_carry, high_bit == 1)
  | .rrc operand =>
    rotate_shift_op cpu bus operand fun v _old_carry =>
      let low_bit := v &&& 1
      ((v >>> 1) ||| (low_bit <<< 7), low_bit == 1)
  | .rr operand =>
    rotate_shift_op cpu bus operand fun v old_carry =>
      let low_bit := v &&& 1
      ((v >>> 1) ||| (old_carry <<< 7), low_bit == 1)
  | .sla operand =>
    rotate_shift_op cpu bus operand fun v _old_carry =>
      (wrap8 (v * 2), (v >>> 7) == 1)
  | .swap operand =>
    rotate_shift_op cpu bus operand fun v _old_carry =>
      ((v >>> 4) ||| wrap8 (v <<< 4), false)
  | .sra operand =>
    rotate_shift_op cpu bus operand fun v _old_carry =>
      (if v ≥ 128 then (v >>> 1) ||| 0x80 else v >>> 1, (v &&& 1) == 1)
  | .srl operand =>
    rotate_shift_op cpu bus operand fun v _old_carry =>
      (v >>> 1, (v &&& 1) == 1)
  | .scf =>
    let cpu := cpu.set_carry_flag
    let cpu := cpu.clear_half_carry_flag
    let cpu := cpu.clear_subtraction_flag
    some (cpu, bus, some 4)
  | .ccf =>
    let cpu := if cpu.get_carry_flag then cpu.clear_carry_flag else cpu.set_carry_flag
    let cpu := cpu.clear_half_carry_flag
    let cpu := cpu.clear_subtraction_flag
    some (cpu, bus, some 4)
  | .di => some ({ cpu with interrupts_enabled := false }, bus, some 4)
  | .ei => some ({ cpu with interrupts_enabled := true }, bus, some 4)

/-- Embedding of `Cpu::should_service_interrupt` (reads IE, then IF). -/
def should_service_interrupt (cpu : Cpu) (bus : MemoryBus) :
    Option (MemoryBus × Bool) :=
  if !cpu.interrupts_enabled then some (bus, false)
  else do
    let r1 ← bus.read_u8 0xffff
    if r1.2 == 0 then some (r1.1, false)
    else do
      let r2 ← r1.1.read_u8 0xff0f
      some (r2.1, (r2.2 &&& r1.2) ≠ 0)

/-- Embedding of `Cpu::service_interrupt`: the serviced-bit clear is applied
to the masked value `IF & IE` and that masked value is written back to IF,
exactly as the source does. -/
def service_interrupt (cpu : Cpu) (bus : MemoryBus) : Option (Cpu × MemoryBus) := do
  let rif ← bus.read_u8 0xff0f
  let rie ← rif.1.read_u8 0xffff
  let interrupt_flags := rif.2 &&& rie.2
  let interrupt_number := trailing_zeros8 interrupt_flags
  if interrupt_number < 5 then do
    let interrupt_flags ← reset_bit interrupt_number interrupt_flags
    let bus ← rie.1.write_u8 0xff0f interrupt_flags
    let cpu := { cpu with interrupts_enabled := false }
    cpu.call bus (0x40 + 8 * interrupt_number)
  else
    none

/-- Embedding of `Cpu::single_step`, parametrized by the instruction decoder
(`Instruction::new`), which is outside the scope of the claims: `fetch`
stands for `get_next_instruction`, returning the decoded instruction and the
bus advanced by the decode reads.  The interrupt-service branch never invokes
`fetch`. -/
def single_step (fetch : MemoryBus → Nat → Instruction × MemoryBus) (cpu : Cpu)
    (bus : MemoryBus) : Option (Cpu × MemoryBus × Option Nat) :=
  if cpu.state ≠ .running then some (cpu, bus, some 1)
  else do
    let r ← cpu.should_service_interrupt bus
    if r.2 then do
      let s ← cpu.service_interrupt r.1
      some (s.1, s.2, some 5)
    else
      let f := fetch r.1 cpu.pc
      execute_instruction cpu f.2 f.1

end Cpu

/-! Concrete states used by witnesses and counterexamples.  `MemoryBus.new`
in the source installs the 256-byte DMG boot ROM via `include_bytes`; its
contents never matter for any claim below (`boot_rom_disable` stays 0 only
for reads below 0x100, which no theorem performs), so the test bus carries an
all-zero boot ROM. -/

/-- A small test cartridge: an all-zero 64 KiB ROM image (4 banks), no
external RAM, bank 1 selected, matching the post-load state of
`Cartridge::new` for such a ROM. -/
def test_cartridge : Cartridge :=
  { rom := fun _ => 0
    rom_size := 65536
    external_ram := fun _ => 0
    external_ram_len := 0
    enable_external_ram := false
    rom_bank_selected := 1
    advanced_banking_mode := false }

/-- Embedding of `MemoryBus::new` over a given cartridge (boot ROM zeroed,
see above). -/
def MemoryBus.new (cartridge : Cartridge) : MemoryBus :=
  { cartridge := cartridge
    ram := fun _ => 0
    ppu := PictureProcessingUnit.initial
    joypad := Joypad.initial
    serial := Comms.initial
    timer_control := Timer.initial
    sound := Sound.initial
    lcd := Lcd.initial
    boot_rom_disable := 0
    interrupt_flags := 0
    high_ram := fun _ => 0
    interrupt_enable := 0
    boot_rom := fun _ => 0
    last_bus_value := 0
    memory_breakpoints := []
    break_reason := none }

/-- The flag-write tail shared by `add8_with_carry` (zero, subtraction, carry,
half-carry, in source order), named here only to state the pipeline lemmas. -/
def Cpu.flag_write_tail (c0 : Cpu) (z n cy hc : Bool) : Cpu :=
  (((c0.set_zero_flag_from_bool z).set_subtraction_flag_from_bool
      n).set_carry_flag_from_bool cy).set_half_carry_flag_from_bool hc

/-- The flag-write tail of the `INC` arms (clear N, set Z from the result,
set H from the low nibble), named to state its pipeline lemma. -/
def Cpu.inc_flag_tail (c0 : Cpu) (z hc : Bool) : Cpu :=
  ((c0.clear_subtraction_flag).set_zero_flag_from_bool z).set_half_carry_flag_from_bool hc

/-- What the LCDC write-then-read round trip actually returns, stated from
the source conversions: `From<u8>` fills the `Control` fields from bit 7
downward while `From<Control> for u8` emits them from bit 0 upward, so the
byte comes back bit-reversed, and the sprite-size and tile-addressing bits
additionally come back complemented because their bool conversions are
inverted between the two directions. -/
def lcdc_write_read_spec (v : Nat) : Nat :=
  ((v &&& 1) <<< 7) ||| (((v >>> 1) &&& 1) <<< 6) |||
  ((1 - ((v >>> 2) &&& 1)) <<< 5) ||| (((v >>> 3) &&& 1) <<< 4) |||
  ((1 - ((v >>> 4) &&& 1)) <<< 3) ||| (((v >>> 5) &&& 1) <<< 2) |||
  (((v >>> 6) &&& 1) <<< 1) ||| ((v >>> 7) &&& 1)

/-- Concrete CPU state for the claim C1 witness: A is 0x3A and the carry flag
is set (F is 0x10, the most significant byte of `af.all` in this embedding). -/
def c1_cpu : Cpu :=
  { af := ⟨0x103A⟩, bc := ⟨0⟩, de := ⟨0⟩, hl := ⟨0⟩, pc := 0, sp := 0,
    state := .running, interrupts_enabled := false }

/-- Bus for the C2 scenario: the first 160 bytes of work RAM (0xC000..0xC09F)
hold 0..159, as in the claim's example program. -/
def c2_bus : MemoryBus :=
  { MemoryBus.new test_cartridge with ram := fun i => if i < 160 then i else 0 }

/-- CPU state for the C3 evaluation: running, IME set, PC = 0x1234,
SP = 0xD000. -/
def c3_cpu : Cpu :=
  { Cpu.default with pc := 0x1234, sp := 0xd000, interrupts_enabled := true }

/-- Bus for the C3 evaluation: IF = 0x05 (VBlank and Timer pending),
IE = 0x01 (only VBlank enabled). -/
def c3_bus : MemoryBus :=
  { MemoryBus.new test_cartridge with interrupt_flags := 0x05, interrupt_enable := 0x01 }

/-- A decoder stub for `single_step`; the interrupt-service branch exercised
by the C3 evaluation never consults the decoder, and the resulting PC of 0x40
with a 5-cycle cost shows that branch was taken. -/
def dummy_fetch : MemoryBus → Nat → Instruction × MemoryBus := fun b _ => (⟨0, .nop⟩, b)

/-- CPU state for the C4 evaluation: Z flag set (F = 0x80, the high byte of
`af.all`), PC = 0x100, SP = 0xD000. -/
def c4_cpu : Cpu :=
  { Cpu.default with af := ⟨0x8000⟩, pc := 0x100, sp := 0xd000 }

def c4_bus : MemoryBus := MemoryBus.new test_cartridge

/-- Tile whose even line bytes are 0xFF and odd line bytes 0: every pixel has
color index 1. -/
def c5_tile1 : Tile := ⟨fun j => if j % 2 = 0 then 0xff else 0⟩

/-- Tile whose even line bytes are 0 and odd line bytes 0xFF: every pixel has
color index 2. -/
def c5_tile2 : Tile := ⟨fun j => if j % 2 = 0 then 0 else 0xff⟩

def c5_attrs : SpriteAttributes := ⟨false, false, false, .palette0, .bank0, 0⟩

/-- OAM with three sprites on line 0: index 0 at x = 10 (tile 0, blank),
index 1 at x = 20 (tile 1, color index 1), index 2 at x = 18 (tile 2, color
index 2). -/
def c5_oam : ObjectAttributeMemory :=
  ⟨fun i =>
    if i = 0 then ⟨16, 10, 0, c5_attrs⟩
    else if i = 1 then ⟨16, 20, 1, c5_attrs⟩
    else if i = 2 then ⟨16, 18, 2, c5_attrs⟩
    else Sprite.initial⟩

def c5_ppu : PictureProcessingUnit :=
  { PictureProcessingUnit.initial with
      video_ram :=
        { VideoRam.initial with
            tile_block_0 := fun i =>
              if i = 1 then c5_tile1 else if i = 2 then c5_tile2 else ⟨fun _ => 0⟩ }
      object_attribute_memory := c5_oam }

/-- LCDC 0x86: LCD on, sprites on and 8-by-8, background off.  Object
palette 0 is 0xE4, the identity mapping (index 1 is light gray, index 2 dark
gray). -/
def c5_lcd : Lcd :=
  { Lcd.initial with
      control := Control.from_u8 0x86
      object_palette_0 := Palette.from_u8 0xe4 }

/-- CPU state for the C8 evaluation: reset flags (F = 0), SP = 0xD000. -/
def c8_cpu : Cpu := { Cpu.default with sp := 0xd000 }

/-- Bus for the C8 evaluation: the two stack bytes at 0xD000 are F0 0F, so
POP AF pops the word 0x0FF0. -/
def c8_bus : MemoryBus :=
  { MemoryBus.new test_cartridge with
    ram := fun i => if i = 0x1000 then 0xf0 else if i = 0x1001 then 0x0f else 0 }

/-- Concrete CPU for the C9 witness: HL = 0xFEA0, reset state otherwise. -/
def c9_cpu : Cpu := { Cpu.default with hl := ⟨0xfea0⟩ }

def c9_bus : MemoryBus := MemoryBus.new test_cartridge

/-! From here on, theorems only.  First the register-storage lemmas used by
the flag-pipeline proofs. -/

namespace RegisterStorage

theorem wf_set_high (r : RegisterStorage) (v : Nat) (h : r.wf) : (r.set_high v).wf := by
  unfold wf set_high at *; simp only; omega

theorem wf_set_low (r : RegisterStorage) (v : Nat) : (r.set_low v).wf := by
  unfold wf set_low; simp only; omega

theorem wf_set_u16 (r : RegisterStorage) (v : Nat) : (r.set_u16 v).wf := by
  unfold wf set_u16 wrap16; simp only; omega

theorem get_low_set_low (r : RegisterStorage) (v : Nat) :
    (r.set_low v).get_low = v % 256 := by
  unfold get_low set_low; simp only; omega

theorem get_high_set_low (r : RegisterStorage) (v : Nat) :
    (r.set_low v).get_high = r.get_high := by
  unfold get_high set_low; simp only; omega

theorem get_low_set_high (r : RegisterStorage) (v : Nat) (h : r.wf) :
    (r.set_high v).get_low = r.get_low := by
  unfold get_low set_high wf at *; simp only; omega

theorem get_high_set_high (r : RegisterStorage) (v : Nat) :
    (r.set_high v).get_high = v % 256 := by
  unfold get_high set_high; simp only; omega

theorem set_low_set_low (r : RegisterStorage) (u v : Nat) :
    (r.set_low u).set_low v = r.set_low v := by
  unfold set_low
  congr 1
  show v % 256 * 256 + (u % 256 * 256 + r.all % 256) % 256 = v % 256 * 256 + r.all % 256
  omega

end RegisterStorage

/-! Helper lemmas about the flag byte.  All flag values are 8-bit, so the
statements are bounded and checked by `decide`. -/

theorem flags_pipeline (c0 : Cpu) (z n cy hc : Bool) (hwf : c0.af.wf) :
    (c0.flag_write_tail z n cy hc).get_zero_flag = z ∧
    (c0.flag_write_tail z n cy hc).get_subtraction_flag = n ∧
    (c0.flag_write_tail z n cy hc).get_carry_flag = cy ∧
    (c0.flag_write_tail z n cy hc).get_half_carry_flag = hc ∧
    (c0.flag_write_tail z n cy hc).af.get_high = c0.af.get_high := by
  have h8 : c0.af.get_low < 256 := by
    have := hwf
    unfold RegisterStorage.wf at this
    unfold RegisterStorage.get_low
    omega
  cases z <;> cases n <;> cases cy <;> cases hc <;>
    · simp only [Cpu.flag_write_tail, Cpu.set_zero_flag_from_bool,
        Cpu.set_subtraction_flag_from_bool,
        Cpu.set_carry_flag_from_bool, Cpu.set_half_carry_flag_from_bool,
        Cpu.set_zero_flag, Cpu.set_subtraction_flag, Cpu.set_carry_flag,
        Cpu.set_half_carry_flag, Cpu.clear_zero_flag, Cpu.clear_subtraction_flag,
        Cpu.clear_carry_flag, Cpu.clear_half_carry_flag, Cpu.set_flags,
        Cpu.get_zero_flag, Cpu.get_subtraction_flag, Cpu.get_carry_flag,
        Cpu.get_half_carry_flag, Cpu.get_flags, Cpu.zero_bit_mask,
        Cpu.subtraction_bit_mask, Cpu.carry_bit_mask, Cpu.half_carry_bit_mask,
        if_true, if_false, Bool.false_eq_true, ite_true, ite_false,
        RegisterStorage.get_low_set_low,
        RegisterStorage.get_high_set_low, RegisterStorage.set_low_set_low]
      refine ⟨?_, ?_, ?_, ?_, ?_⟩ <;>
        first
          | rfl
          | (generalize c0.af.get_low = f at h8 ⊢
             revert f
             decide)

section ClaimC1

/-- CLAIM C1.  For every 8-bit accumulator value `a`, operand `b`, and incoming
carry `c` (where `c = 0` when the carry flag is clear or when `use_carry` is
false, i.e. for `SUB`; `Opcode::Sbc` executes `add8_with_carry v true true` and
`Opcode::Sub` executes `add8_with_carry v false true`), `add8_with_carry` in
subtraction mode sets A to `(a - b - c) mod 256`, Z to `result == 0`, N to 1,
H to `(a % 16) < (b % 16) + c`, and C to `a < b + c` over the integers. -/
theorem sbc_sub_sets_result_and_flags (cpu : Cpu) (b c : Nat) (use_carry : Bool)
    (hwf : cpu.af.wf) (hb : b < 256)
    (hc : c = if use_carry && cpu.get_carry_flag then 1 else 0) :
    ((cpu.add8_with_carry b use_carry true).af.get_high : Int) =
        ((cpu.af.get_high : Int) - b - c) % 256 ∧
    (cpu.add8_with_carry b use_carry true).get_zero_flag =
        ((cpu.add8_with_carry b use_carry true).af.get_high == 0) ∧
    (cpu.add8_with_carry b use_carry true).get_subtraction_flag = true ∧
    (cpu.add8_with_carry b use_carry true).get_half_carry_flag =
        decide (cpu.af.get_high % 16 < b % 16 + c) ∧
    (cpu.add8_with_carry b use_carry true).get_carry_flag =
        decide (cpu.af.get_high < b + c) := by
  have ha : cpu.af.get_high < 256 := by
    unfold RegisterStorage.get_high; omega
  have hc01 : c = 0 ∨ c = 1 := by rw [hc]; split <;> simp
  have htail : ∀ (c0 : Cpu) (z n cy hc : Bool),
      (((c0.set_zero_flag_from_bool z).set_subtraction_flag_from_bool
          n).set_carry_flag_from_bool cy).set_half_carry_flag_from_bool hc =
        c0.flag_write_tail z n cy hc := fun _ _ _ _ _ => rfl
  simp only [Cpu.add8_with_carry, eq_self_iff_true, if_true, htail, ← hc]
  obtain ⟨hz, hn, hcy, hhc, hhigh⟩ :=
    flags_pipeline
      { cpu with af := cpu.af.set_high (wrap8 (wrap8 (cpu.af.get_high + wrap8 (255 - b + 1)) + wrap8 (255 - c + 1))) }
      (wrap8 (wrap8 (cpu.af.get_high + wrap8 (255 - b + 1)) + wrap8 (255 - c + 1)) == 0)
      true
      (if (use_carry && c == 1 && b == 255) = true then true
        else decide (cpu.af.get_high < b + c))
      (if (use_carry && c == 1 && b % 16 == 15) = true then true
        else decide (cpu.af.get_high % 16 < b % 16 + c % 16))
      (RegisterStorage.wf_set_high _ _ hwf)
  have hS : wrap8 (wrap8 (cpu.af.get_high + wrap8 (255 - b + 1)) + wrap8 (255 - c + 1)) < 256 := by
    unfold wrap8; omega
  refine ⟨?_, ?_, ?_, ?_, ?_⟩
  · rw [hhigh]
    dsimp only
    rw [RegisterStorage.get_high_set_high]
    unfold wrap8
    omega
  · rw [hz, hhigh]
    dsimp only
    rw [RegisterStorage.get_high_set_high, Nat.mod_eq_of_lt hS]
  · exact hn
  · rw [hhc]
    rcases hc01 with h0 | h1c
    · subst h0
      have hf : (use_carry && 0 == 1 && b % 16 == 15) = false := by simp
      rw [hf]
      norm_num
    · have huse : use_carry = true := by
        rcases use_carry with _ | _
        · rw [h1c] at hc; simp at hc
        · rfl
      subst huse
      subst h1c
      by_cases hb15 : b % 16 = 15
      · rw [if_pos (by simp [hb15])]
        have h16 : cpu.af.get_high % 16 < 16 := Nat.mod_lt _ (by omega)
        simp [hb15, h16]
      · rw [if_neg (by simp [hb15])]
  · rw [hcy]
    rcases hc01 with h0 | h1c
    · subst h0
      have hf : (use_carry && 0 == 1 && b == 255) = false := by simp
      rw [hf]
      norm_num
    · have huse : use_carry = true := by
        rcases use_carry with _ | _
        · rw [h1c] at hc; simp at hc
        · rfl
      subst huse
      subst h1c
      by_cases hb255 : b = 255
      · subst hb255
        rw [if_pos (by simp)]
        simp [ha]
      · rw [if_neg (by simp [hb255])]

/-- Witness for C1: instantiate SBC at A = 0x3A, b = 0x0F, carry in = 1. -/
theorem sbc_sub_sets_result_and_flags_witness :
    (c1_cpu.af.wf ∧ (15 : Nat) < 256 ∧
      (1 : Nat) = if true && c1_cpu.get_carry_flag then 1 else 0) ∧
    (((c1_cpu.add8_with_carry 15 true true).af.get_high : Int) =
        ((c1_cpu.af.get_high : Int) - 15 - 1) % 256 ∧
    (c1_cpu.add8_with_carry 15 true true).get_zero_flag =
        ((c1_cpu.add8_with_carry 15 true true).af.get_high == 0) ∧
    (c1_cpu.add8_with_carry 15 true true).get_subtraction_flag = true ∧
    (c1_cpu.add8_with_carry 15 true true).get_half_carry_flag =
        decide (c1_cpu.af.get_high % 16 < 15 % 16 + 1) ∧
    (c1_cpu.add8_with_carry 15 true true).get_carry_flag =
        decide (c1_cpu.af.get_high < 15 + 1)) :=
  ⟨⟨by decide, by decide, by decide⟩,
    sbc_sub_sets_result_and_flags c1_cpu 15 1 true (by decide) (by decide) (by decide)⟩

end ClaimC1

section ClaimC6

/-- CLAIM C6, refuted at a concrete input.  The claim says a STAT interrupt is
emitted only on a rising edge of the stat-line signal.  In the reset LCD state
`last_stat_interrupt` is true while every stat-enable bit of STAT (0x85) is
clear, so the first `Lcd::tick` computes a stat signal of false — a falling
edge — and still emits a STAT interrupt, because the source compares the old
and new signal with inequality instead of testing a rising edge. -/
theorem stat_interrupt_fires_on_falling_edge :
    Lcd.initial.last_stat_interrupt = true ∧
    (Lcd.initial.tick).1.last_stat_interrupt = false ∧
    (Lcd.initial.tick).2.2 = true := by decide

end ClaimC6

section ClaimC10

/-- CLAIM C10, counterexample: writing 0x80 to LCDC (offset 0 of the LCD
block, address 0xFF40) and reading it back yields 0x29, not 0x80, so the
write-then-read round trip is not the identity. -/
theorem lcdc_roundtrip_not_identity :
    ((Lcd.initial.write_u8 0 0x80).bind fun l => l.read_u8 0) = some 0x29 ∧
    (0x29 : Nat) ≠ 0x80 := by decide

/-- CLAIM C10 as amended: for every byte v, writing v to LCDC and reading it
back returns the bit-reversed byte with bits 2 and 4 of the input reflected
complemented (`lcdc_write_read_spec`), not v itself. -/
theorem lcdc_write_read_returns_bit_reversed (v : Nat) (hv : v < 256) :
    ((Lcd.initial.write_u8 0 v).bind fun l => l.read_u8 0) =
      some (lcdc_write_read_spec v) := by
  revert v
  decide

/-- Witness for the amended C10 at v = 0x80 (the readback is 0x29). -/
theorem lcdc_write_read_returns_bit_reversed_witness :
    (0x80 : Nat) < 256 ∧
    ((Lcd.initial.write_u8 0 0x80).bind fun l => l.read_u8 0) =
      some (lcdc_write_read_spec 0x80) :=
  ⟨by decide, lcdc_write_read_returns_bit_reversed 0x80 (by decide)⟩

end ClaimC10

section ClaimC4

/-- CLAIM C4, evaluated at the failing input.  With the Z flag set, `CALL NZ`
is untaken and the source returns 16 cycles where the claim (and DMG
hardware) say 12; the other three cases match the claim: taken `CALL Z` is
24, untaken `JR NZ` is 8, taken `JR Z` is 12. -/
theorem conditional_call_untaken_costs_16_not_12 :
    Cpu.execute_instruction c4_cpu c4_bus ⟨0x100, .call_cond .non_zero 0x3000⟩ =
      some ({ c4_cpu with pc := 0x103 }, c4_bus, some 16) ∧
    ((Cpu.execute_instruction c4_cpu c4_bus ⟨0x100, .call_cond .zero 0x3000⟩).map
      fun r => (r.1.pc, r.1.sp, r.2.2)) = some (0x3000, 0xcffe, some 24) ∧
    Cpu.execute_instruction c4_cpu c4_bus ⟨0x100, .jr_cond .non_zero 5⟩ =
      some ({ c4_cpu with pc := 0x102 }, c4_bus, some 8) ∧
    Cpu.execute_instruction c4_cpu c4_bus ⟨0x100, .jr_cond .zero 5⟩ =
      some ({ c4_cpu with pc := 0x107 }, c4_bus, some 12) := by
  refine ⟨rfl, by decide, rfl, rfl⟩

end ClaimC4

section ClaimC8

/-- CLAIM C8, evaluated at the failing input.  Starting from F with a zero
low nibble, POP AF of the word 0x0FF0 leaves F = 0x0F: the source masks the
popped word with 0xFFF0 through the register union, which on the
little-endian layout clears the low nibble of A (the low byte of `all`)
instead of F (the high byte), so F's low four bits end up 0xF, violating the
invariant the claim states. -/
theorem pop_af_leaves_low_flag_bits_set :
    c8_cpu.get_flags % 16 = 0 ∧
    ((Cpu.execute_instruction c8_cpu c8_bus ⟨0, .pop .af⟩).map
      fun r => (r.1.get_flags, r.1.get_flags % 16, r.1.get_a, r.1.sp, r.2.2)) =
        some (0x0f, 0x0f, 0xf0, 0xd002, some 12) := by decide

end ClaimC8

section ClaimC7

/-- CLAIM C7, counterexample: on the 64 KiB test cartridge (4 banks of
16 KiB, a power-of-two multiple), the single CPU write of 0x04 to 0x2000
leaves `rom_bank_selected = 0`: the value 4 has nonzero low 5 bits, so the
zero-to-one translation does not fire, and the subsequent mask by
`rom_size/16384 - 1 = 3` produces 0.  Reads of 0x4000-0x7FFF then use
effective bank 0 (the read of offset 0 returns ROM byte 0 of bank 0). -/
theorem mbc1_bank_write_can_select_bank_zero :
    test_cartridge.rom_size = 16384 * 4 ∧
    ((test_cartridge.write_rom_bank_0 0x2000 0x04).map
      fun c => c.rom_bank_selected) = some 0 ∧
    ((test_cartridge.write_rom_bank_0 0x2000 0x04).map
      fun c => c.read_rom_selected_bank 0 == c.rom 0) = some true := by
  decide

/-- CLAIM C7 as amended: a write to 0x2000-0x3FFF stores
`((b & 0x1F) == 0 ? 1 : b & 0x1F) & (rom_size/16384 - 1)`.  A write whose low
5 bits are 0 selects bank 1 (the surviving part of the claim), and on a
cartridge with at least 32 banks the stored bank is never 0; on smaller
power-of-two cartridges the mask applied after the zero-to-one translation
can produce bank 0. -/
theorem mbc1_bank_write_postcondition (c : Cartridge) (offset byte k : Nat)
    (hsize : c.rom_size = 16384 * 2 ^ k) (hk1 : 1 ≤ k) (hk7 : k ≤ 7)
    (ho1 : 0x2000 ≤ offset) (ho2 : offset ≤ 0x3fff) :
    ((c.write_rom_bank_0 offset byte).map fun c2 => c2.rom_bank_selected) =
      some ((if byte &&& 0x1f = 0 then 1 else byte &&& 0x1f) &&& (2 ^ k - 1)) ∧
    (byte &&& 0x1f = 0 →
      ((c.write_rom_bank_0 offset byte).map fun c2 => c2.rom_bank_selected) =
        some 1) ∧
    (5 ≤ k →
      ((c.write_rom_bank_0 offset byte).map fun c2 => c2.rom_bank_selected) ≠
        some 0) := by
  have hb : byte &&& 31 < 32 := by
    have := Nat.and_lt_two_pow byte (show (31 : Nat) < 2 ^ 5 by norm_num)
    simpa using this
  unfold Cartridge.write_rom_bank_0
  rw [if_neg (by omega), if_pos (by omega), hsize]
  interval_cases k <;>
    · norm_num [wrap8, Option.map]
      generalize hm : byte &&& 31 = m at hb ⊢
      clear hm
      revert hb
      revert m
      decide

/-- Witness for the amended C7 on the 64 KiB test cartridge (k = 2), writing
0x20 (low 5 bits zero) to 0x2000: the stored bank is 1. -/
theorem mbc1_bank_write_postcondition_witness :
    (test_cartridge.rom_size = 16384 * 2 ^ 2 ∧ 1 ≤ 2 ∧ 2 ≤ 7 ∧
      (0x2000 : Nat) ≤ 0x2000 ∧ (0x2000 : Nat) ≤ 0x3fff) ∧
    (((test_cartridge.write_rom_bank_0 0x2000 0x20).map
        fun c2 => c2.rom_bank_selected) =
      some ((if 0x20 &&& 0x1f = 0 then 1 else 0x20 &&& 0x1f) &&& (2 ^ 2 - 1)) ∧
    ((0x20 : Nat) &&& 0x1f = 0 →
      ((test_cartridge.write_rom_bank_0 0x2000 0x20).map
          fun c2 => c2.rom_bank_selected) = some 1) ∧
    (5 ≤ 2 →
      ((test_cartridge.write_rom_bank_0 0x2000 0x20).map
          fun c2 => c2.rom_bank_selected) ≠ some 0)) :=
  ⟨⟨by decide, by decide, by decide, by decide, by decide⟩,
    mbc1_bank_write_postcondition test_cartridge 0x2000 0x20 2 (by decide)
      (by decide) (by decide) (by decide) (by decide)⟩

end ClaimC7

section ClaimC2

/-- CLAIM C2, evaluated at the failing input.  Writing 0xC0 to the DMA
register 0xFF46 starts the transfer, but stepping the DMA copies nothing into
OAM: `run_dma` performs its source read and OAM write through the bus's own
DMA arbitration, so every source read returns the latched last bus value and
every write to OAM (a non-HRAM region) is dropped.  After 160 stepped cycles
OAM byte 1 still reads 0 (the claim requires 1), and the transfer is already
finished after exactly 160 stepped cycles (running after 159), not 640. -/
theorem dma_copies_nothing_into_oam :
    ((c2_bus.write_u8 0xff46 0xc0).map fun b => b.lcd.dma_running) = some true ∧
    (((c2_bus.write_u8 0xff46 0xc0).bind fun b => b.run_dma 160).bind
        fun b => b.ppu.object_attribute_memory.read 1) = some 0 ∧
    (((c2_bus.write_u8 0xff46 0xc0).bind fun b => b.run_dma 160).map
        fun b => b.lcd.dma_running) = some false ∧
    (((c2_bus.write_u8 0xff46 0xc0).bind fun b => b.run_dma 159).map
        fun b => b.lcd.dma_running) = some true := by
  refine ⟨by decide, by decide, by decide, by decide⟩

end ClaimC2

section ClaimC3

/-- CLAIM C3, evaluated at the failing input.  With IME set, IF = 0x05 and
IE = 0x01, `single_step` services the VBlank interrupt (lowest set bit of
IF & IE): it clears IME, pushes PC (0x1234 appears at 0xCFFE/0xCFFF,
SP becomes 0xCFFE) and jumps to 0x40 — but it writes back `IF & IE` with the
serviced bit cleared, so IF becomes 0x00 instead of 0x04 (the pending timer
bit is lost), and it returns a cost of 5, not 20. -/
theorem service_interrupt_clobbers_if_and_returns_5 :
    ((Cpu.single_step dummy_fetch c3_cpu c3_bus).map fun r =>
      (r.1.pc, r.1.interrupts_enabled, r.2.1.interrupt_flags, r.2.2)) =
        some (0x40, false, 0x00, some 5) ∧
    ((Cpu.single_step dummy_fetch c3_cpu c3_bus).map fun r =>
      (r.2.1.ram 0x0ffe, r.2.1.ram 0x0fff, r.1.sp)) = some (0x34, 0x12, 0xcffe) := by
  exact ⟨by decide, by decide⟩

end ClaimC3

section ClaimC9

theorem from_address_unused (a : Nat) (h1 : 0xfea0 ≤ a) (h2 : a ≤ 0xfeff) :
    MemoryRegion.from_address a = .unused := by
  unfold MemoryRegion.from_address
  split_ifs <;> first | rfl | omega

theorem unused_read (bus : MemoryBus) (addr : Nat)
    (h1 : 0xfea0 ≤ addr) (h2 : addr ≤ 0xfeff)
    (hdma : bus.lcd.get_dma_running = false) :
    bus.read_u8 addr =
      some ({ bus with
          break_reason := bus.break_reason.or (bus.check_breakpoints addr false),
          last_bus_value := (((addr >>> 4) &&& 0xf) <<< 4) ||| ((addr >>> 4) &&& 0xf) },
        (((addr >>> 4) &&& 0xf) <<< 4) ||| ((addr >>> 4) &&& 0xf)) := by
  unfold MemoryBus.read_u8
  rw [from_address_unused addr h1 h2, hdma]
  simp

theorem unused_write (bus : MemoryBus) (addr v : Nat)
    (h1 : 0xfea0 ≤ addr) (h2 : addr ≤ 0xfeff)
    (hdma : bus.lcd.get_dma_running = false) :
    bus.write_u8 addr v =
      some { bus with
        break_reason := bus.break_reason.or (bus.check_breakpoints addr true),
        last_bus_value := v } := by
  unfold MemoryBus.write_u8
  rw [from_address_unused addr h1 h2, hdma]
  simp

theorem unused_read_fea0 (bus : MemoryBus)
    (hdma : bus.lcd.get_dma_running = false) :
    bus.read_u8 0xfea0 =
      some ({ bus with
          break_reason := bus.break_reason.or (bus.check_breakpoints 0xfea0 false),
          last_bus_value := 0xaa }, 0xaa) := by
  have h := unused_read bus 0xfea0 (by norm_num) (by norm_num) hdma
  norm_num at h
  exact h

theorem unused_write_fea0 (bus : MemoryBus) (v : Nat)
    (hdma : bus.lcd.get_dma_running = false) :
    bus.write_u8 0xfea0 v =
      some { bus with
        break_reason := bus.break_reason.or (bus.check_breakpoints 0xfea0 true),
        last_bus_value := v } :=
  unused_write bus 0xfea0 v (by norm_num) (by norm_num) hdma

theorem inc_flags_pipeline (c0 : Cpu) (z hc : Bool) (hwf : c0.af.wf) :
    (Cpu.inc_flag_tail c0 z hc).get_zero_flag = z ∧
    (Cpu.inc_flag_tail c0 z hc).get_subtraction_flag = false ∧
    (Cpu.inc_flag_tail c0 z hc).get_carry_flag = c0.get_carry_flag ∧
    (Cpu.inc_flag_tail c0 z hc).get_half_carry_flag = hc ∧
    (Cpu.inc_flag_tail c0 z hc).af.get_high = c0.af.get_high := by
  have h8 : c0.af.get_low < 256 := by
    have := hwf
    unfold RegisterStorage.wf at this
    unfold RegisterStorage.get_low
    omega
  cases z <;> cases hc <;>
    · simp only [Cpu.inc_flag_tail, Cpu.set_zero_flag_from_bool,
        Cpu.set_half_carry_flag_from_bool,
        Cpu.set_zero_flag, Cpu.set_half_carry_flag, Cpu.clear_zero_flag,
        Cpu.clear_subtraction_flag, Cpu.clear_half_carry_flag, Cpu.set_flags,
        Cpu.get_zero_flag, Cpu.get_subtraction_flag, Cpu.get_carry_flag,
        Cpu.get_half_carry_flag, Cpu.get_flags, Cpu.zero_bit_mask,
        Cpu.subtraction_bit_mask, Cpu.carry_bit_mask, Cpu.half_carry_bit_mask,
        if_true, if_false, Bool.false_eq_true, ite_true, ite_false,
        RegisterStorage.get_low_set_low,
        RegisterStorage.get_high_set_low, RegisterStorage.set_low_set_low]
      refine ⟨?_, ?_, ?_, ?_, ?_⟩ <;>
        first
          | rfl
          | (generalize c0.af.get_low = f at h8 ⊢
             revert f
             decide)

/-- CLAIM C9.  For every address in 0xFEA0-0xFEFF with OAM DMA inactive, a
bus read returns the byte that duplicates the second address nibble in both
nibbles (0xFEA0 reads 0xAA), never fails, and leaves the bus unchanged apart
from the open-bus latch and the breakpoint latch; a write is dropped,
changing no memory state (only those two latches).  Consequently `INC (HL)`
with HL = 0xFEA0 computes its result and flags as if operating on 0xAA
(Z = 0, N = 0, H = 0, C preserved, A untouched, 12 cycles, not fatal) and
its write-back of 0xAB has no effect on any memory. -/
theorem unused_region_open_bus (bus : MemoryBus) (cpu : Cpu) (addr v : Nat)
    (h1 : 0xfea0 ≤ addr) (h2 : addr ≤ 0xfeff)
    (hdma : bus.lcd.get_dma_running = false)
    (hhl : cpu.hl.get_u16 = 0xfea0) (hwf : cpu.af.wf) :
    bus.read_u8 addr =
      some ({ bus with
          break_reason := bus.break_reason.or (bus.check_breakpoints addr false),
          last_bus_value := (((addr >>> 4) &&& 0xf) <<< 4) ||| ((addr >>> 4) &&& 0xf) },
        (((addr >>> 4) &&& 0xf) <<< 4) ||| ((addr >>> 4) &&& 0xf)) ∧
    bus.write_u8 addr v =
      some { bus with
        break_reason := bus.break_reason.or (bus.check_breakpoints addr true),
        last_bus_value := v } ∧
    ((Cpu.execute_instruction cpu bus ⟨cpu.pc, .inc (.deref (.register .hl))⟩).map
        fun r => (r.1.get_zero_flag, r.1.get_subtraction_flag,
          r.1.get_half_carry_flag, r.1.get_carry_flag, r.1.get_a, r.2.2)) =
      some (false, false, false, cpu.get_carry_flag, cpu.get_a, some 12) ∧
    ((Cpu.execute_instruction cpu bus ⟨cpu.pc, .inc (.deref (.register .hl))⟩).map
        fun r => r.2.1) =
      some { bus with
        break_reason := (bus.break_reason.or (bus.check_breakpoints 0xfea0 false)).or
          (bus.check_breakpoints 0xfea0 true),
        last_bus_value := 0xab } := by
  refine ⟨unused_read bus addr h1 h2 hdma, unused_write bus addr v h1 h2 hdma, ?_⟩
  unfold Cpu.execute_instruction
  simp only [hhl]
  rw [unused_read_fea0 bus hdma]
  simp only [Option.bind_eq_bind, Option.some_bind]
  rw [show wrap8 (0xaa + 1) = 0xab from by decide]
  rw [unused_write_fea0]
  case hdma => exact hdma
  simp only [Option.some_bind, Option.map_some]
  have htail : ∀ (c0 : Cpu) (z hc : Bool),
      (c0.clear_subtraction_flag.set_zero_flag_from_bool z).set_half_carry_flag_from_bool hc =
        Cpu.inc_flag_tail c0 z hc := fun _ _ _ => rfl
  rw [htail]
  obtain ⟨hz, hn, hcy, hhc, hhi⟩ :=
    inc_flags_pipeline
      { cpu with pc := wrap16 (cpu.pc +
          (Instruction.mk cpu.pc (.inc (.deref (.register .hl)))).size) }
      ((171 : Nat) == 0) ((170 &&& 15 : Nat) == 15) hwf
  constructor
  · simp only [Option.map_some', Cpu.get_a, hz, hn, hcy, hhc, hhi]
    rfl
  · rfl

/-- Witness for C9 at address 0xFEA0, write value 0x12, on the fresh test
bus with HL = 0xFEA0. -/
theorem unused_region_open_bus_witness :
    ((0xfea0 : Nat) ≤ 0xfea0 ∧ (0xfea0 : Nat) ≤ 0xfeff ∧
      c9_bus.lcd.get_dma_running = false ∧ c9_cpu.hl.get_u16 = 0xfea0 ∧
      c9_cpu.af.wf) ∧
    (c9_bus.read_u8 0xfea0 =
      some ({ c9_bus with
          break_reason := c9_bus.break_reason.or (c9_bus.check_breakpoints 0xfea0 false),
          last_bus_value :=
            (((0xfea0 >>> 4) &&& 0xf) <<< 4) ||| ((0xfea0 >>> 4) &&& 0xf) },
        (((0xfea0 >>> 4) &&& 0xf) <<< 4) ||| ((0xfea0 >>> 4) &&& 0xf)) ∧
    c9_bus.write_u8 0xfea0 0x12 =
      some { c9_bus with
        break_reason := c9_bus.break_reason.or (c9_bus.check_breakpoints 0xfea0 true),
        last_bus_value := 0x12 } ∧
    ((Cpu.execute_instruction c9_cpu c9_bus
        ⟨c9_cpu.pc, .inc (.deref (.register .hl))⟩).map
        fun r => (r.1.get_zero_flag, r.1.get_subtraction_flag,
          r.1.get_half_carry_flag, r.1.get_carry_flag, r.1.get_a, r.2.2)) =
      some (false, false, false, c9_cpu.get_carry_flag, c9_cpu.get_a, some 12) ∧
    ((Cpu.execute_instruction c9_cpu c9_bus
        ⟨c9_cpu.pc, .inc (.deref (.register .hl))⟩).map
        fun r => r.2.1) =
      some { c9_bus with
        break_reason := (c9_bus.break_reason.or (c9_bus.check_breakpoints 0xfea0 false)).or
          (c9_bus.check_breakpoints 0xfea0 true),
        last_bus_value := 0xab }) :=
  ⟨⟨by decide, by decide, by decide, by decide, by decide⟩,
    unused_region_open_bus c9_bus c9_cpu 0xfea0 0x12 (by decide) (by decide)
      (by decide) (by decide) (by decide)⟩

end ClaimC9

section ClaimC5

/-- CLAIM C5, evaluated at the failing input.  Ticking the PPU for 95 dots
draws line 0 up to pixel 14.  The line cache (the `BinaryHeap` vector, built
by the three pushes of the OAM scan) holds the sprites in the order
x = 10, 20, 18.  Pixel 14 is covered by the sprites at x = 20 and x = 18,
both with non-zero color there; the claimed winner is the smallest-x sprite
(x = 18, tile 2, color index 2, dark gray under palette 0xE4) — but the code
iterates the heap's vector order and draws the x = 20 sprite first, so the
framebuffer receives light gray, not dark gray. -/
theorem sprite_priority_ignores_x_order :
    (c5_ppu.tick 95 c5_lcd).1.framebuffer1 0 14 = Color.light_gray ∧
    ((c5_ppu.tick 95 c5_lcd).1.sprites_this_line.map fun s => s.x) = [10, 20, 18] ∧
    c5_ppu.get_color_at_pixel_for_sprite 4 0 2 false false = ColorIndex.color2 ∧
    (c5_lcd.get_object_palettes.1.get_color ColorIndex.color2 = Color.dark_gray) ∧
    Color.light_gray ≠ Color.dark_gray := by
  refine ⟨by decide, by decide, by decide, by decide, by decide⟩

end ClaimC5

end GbcEmu
